import Mathlib

/-
Verification of the pumpfun-dev orchestration routes.

The repository is a Next.js application whose server routes and client form
orchestrate wallet generation, a funding transfer, a token mint via an
external SDK, and bookkeeping persistence.  This file gives a shallow
embedding of the relevant handlers:

  - src/app/api/create-sol/route.ts   (token mint with retry loops)
  - src/app/api/generate-wallet/route.ts
  - src/app/api/tokens/route.ts
  - src/components/CreateAgentForm.tsx (client funding + submission flow)
  - the authenticated memecoin route (unnamed/part_001)

Effectful handlers are modelled as pure functions from an explicit world
record (one field per external interaction, in program order) to a trace of
externally visible events plus a response value.  JavaScript number
arithmetic on the amount constants is modelled exactly: a numeric literal
or product denotes the IEEE-754 binary64 value, represented as an exact
unnormalized fraction over the integers, with round-to-nearest-even
applied after every operation (function fl below).
-/

/-- Frac is an exact unnormalized fraction num / den with den positive by
construction.  It represents JavaScript number values exactly. -/
structure Frac where
  num : ℤ
  den : ℤ
deriving DecidableEq, Repr

/-- pow2 n is 2 to the n as an integer, computed by structural recursion so
that the kernel can evaluate it. -/
def pow2 (n : ℕ) : ℤ := (List.range n).foldl (fun a _ => a * 2) 1

/-- fracLe a b decides a is less than or equal to b (denominators positive). -/
def fracLe (a b : Frac) : Bool := a.num * b.den ≤ b.num * a.den

/-- fracLt a b decides a is strictly less than b (denominators positive). -/
def fracLt (a b : Frac) : Bool := a.num * b.den < b.num * a.den

/-- fracEq a b decides semantic equality of the two fractions. -/
def fracEq (a b : Frac) : Bool := a.num * b.den == b.num * a.den

/-- fracMul is exact multiplication of fractions. -/
def fracMul (a b : Frac) : Frac := ⟨a.num * b.num, a.den * b.den⟩

/-- fracDiv is exact division of fractions (second argument positive in all
uses). -/
def fracDiv (a b : Frac) : Frac := ⟨a.num * b.den, a.den * b.num⟩

/-- fracOfNat embeds a lamport count (an exact integer, as returned by
getBalance) into Frac. -/
def fracOfNat (n : ℕ) : Frac := ⟨(n : ℤ), 1⟩

/-- pow2Frac e is 2 to the integer power e as a fraction. -/
def pow2Frac (e : ℤ) : Frac := if 0 ≤ e then ⟨pow2 e.toNat, 1⟩ else ⟨1, pow2 (-e).toNat⟩

/-- expCandidates is the exponent search range for binary64 normalization.
The range minus 40 to 40 covers every magnitude that occurs in this
program (amounts between 2 to the minus 14 and 2 to the 32). -/
def expCandidates : List ℤ := (List.range 81).map (fun n => (n : ℤ) - 40)

/-- floorLog2 q is the unique e with 2 to the e at most q and q below
2 to the e plus 1, found by bounded search (q positive, in range). -/
def floorLog2 (q : Frac) : ℤ :=
  (expCandidates.find? (fun e => fracLe (pow2Frac e) q && fracLt q (pow2Frac (e + 1)))).getD 0

/-- rneInt a b rounds the fraction a / b (b positive, a nonnegative) to the
nearest integer, ties to even. -/
def rneInt (a b : ℤ) : ℤ :=
  let f := a / b
  let rem := a % b
  if 2 * rem < b then f
  else if b < 2 * rem then f + 1
  else if f % 2 = 0 then f else f + 1

/-- fl q rounds the exact positive rational q to the nearest IEEE-754
binary64 value (round to nearest, ties to even), for magnitudes in the
normal range covered by expCandidates.  This is the value semantics of
JavaScript number literals and arithmetic results. -/
def fl (q : Frac) : Frac :=
  if q.num ≤ 0 then ⟨0, 1⟩
  else
    let e := floorLog2 q
    let s := (52 : ℤ) - e
    let scaled : Frac := if 0 ≤ s then ⟨q.num * pow2 s.toNat, q.den⟩ else ⟨q.num, q.den * pow2 (-s).toNat⟩
    let m := rneInt scaled.num scaled.den
    if 0 ≤ s then ⟨m, pow2 s.toNat⟩ else ⟨m * pow2 (-s).toNat, 1⟩

/-- jsDecimal n d is the binary64 value denoted by the decimal literal
n / d in the source (for example jsDecimal 1 10000 is the literal 0.0001). -/
def jsDecimal (n d : ℤ) : Frac := fl ⟨n, d⟩

/-- jsMul is JavaScript number multiplication: exact product, then
binary64 rounding. -/
def jsMul (a b : Frac) : Frac := fl (fracMul a b)

/-- jsDiv is JavaScript number division: exact quotient, then binary64
rounding. -/
def jsDiv (a b : Frac) : Frac := fl (fracDiv a b)

/-- jsBigIntOf models the BigInt(x) conversion of a JavaScript number:
it succeeds with the integer value when x is integral and throws (none)
otherwise. -/
def jsBigIntOf (q : Frac) : Option ℤ :=
  if q.num % q.den == 0 then some (q.num / q.den) else none

/-- LAMPORTS_PER_SOL from the web3 library, 10 to the 9, exactly
representable in binary64. -/
def LAMPORTS_PER_SOL : Frac := ⟨1000000000, 1⟩

/-- MAX_RETRIES from create-sol/route.ts line 18 (also CreateAgentForm). -/
def MAX_RETRIES : ℕ := 3

/-- RETRY_DELAY in milliseconds from create-sol/route.ts line 19. -/
def RETRY_DELAY : ℕ := 2000

/-- FORM_RETRY_DELAY in milliseconds from CreateAgentForm.tsx line 25
(the constant is named RETRY_DELAY there; renamed here to avoid a clash). -/
def FORM_RETRY_DELAY : ℕ := 3000

/-- MINIMUM_BALANCE_REQUIRED from create-sol/route.ts line 21:
0.01 * LAMPORTS_PER_SOL as JavaScript numbers. -/
def MINIMUM_BALANCE_REQUIRED : Frac := jsMul (jsDecimal 1 100) LAMPORTS_PER_SOL

/-- SLIPPAGE_BASIS_POINTS from create-sol/route.ts line 22: BigInt(100). -/
def SLIPPAGE_BASIS_POINTS : ℤ := 100

/-- createAndBuyLamports is the initial buy amount passed to the SDK in
create-sol/route.ts line 194: BigInt(0.0001 * LAMPORTS_PER_SOL).  The
conversion throws (none) if the float product is not integral. -/
def createAndBuyLamports : Option ℤ := jsBigIntOf (jsMul (jsDecimal 1 10000) LAMPORTS_PER_SOL)

/-- buyBackLamports is the buy-back amount passed to the SDK in
create-sol/route.ts line 231: BigInt(3.1 * LAMPORTS_PER_SOL). -/
def buyBackLamports : Option ℤ := jsBigIntOf (jsMul (jsDecimal 31 10) LAMPORTS_PER_SOL)

/-- BASE_AMOUNT_FORM from CreateAgentForm.tsx line 22:
0.025 * LAMPORTS_PER_SOL, the funding transfer amount of the client form. -/
def BASE_AMOUNT_FORM : Frac := jsMul (jsDecimal 25 1000) LAMPORTS_PER_SOL

/-- BASE_AMOUNT_MEME from unnamed/part_001 line 6:
0.030 * LAMPORTS_PER_SOL, the funding transfer amount of the memecoin
route. -/
def BASE_AMOUNT_MEME : Frac := jsMul (jsDecimal 30 1000) LAMPORTS_PER_SOL

/-- BASE_AMOUNT_GENWALLET from generate-wallet/route.ts line 14:
3.125 * LAMPORTS_PER_SOL. -/
def BASE_AMOUNT_GENWALLET : Frac := jsMul (jsDecimal 3125 1000) LAMPORTS_PER_SOL

/-- requiredAmountValue from generate-wallet/route.ts line 32:
AMOUNT_NEEDED / LAMPORTS_PER_SOL as JavaScript numbers. -/
def requiredAmountValue : Frac := jsDiv BASE_AMOUNT_GENWALLET LAMPORTS_PER_SOL

/-- SdkAttempt is the outcome of one attempt of an external SDK call or
RPC call inside a try block: either the call throws, or it returns a
result whose success flag is recorded. -/
inductive SdkAttempt where
  | throws (e : String)
  | returns (success : Bool)

/-- RetryEvent is one step of a bounded retry loop: the attempt with its
zero-based index, or a sleep of the given number of milliseconds. -/
inductive RetryEvent where
  | attempt (i : ℕ)
  | sleep (ms : ℕ)
deriving DecidableEq

/-- countAttempts counts the attempt events of a retry trace. -/
def countAttempts (t : List RetryEvent) : ℕ :=
  t.countP (fun e => match e with | .attempt _ => true | .sleep _ => false)

/-- countSleeps counts the sleep events of a retry trace. -/
def countSleeps (t : List RetryEvent) : ℕ :=
  t.countP (fun e => match e with | .attempt _ => false | .sleep _ => true)

/-- isThrow tests whether an attempt outcome is a thrown error. -/
def isThrow (a : SdkAttempt) : Bool := match a with | .throws _ => true | .returns _ => false

/-- sdkRetryGo is the body of the retry loops of create-sol/route.ts
lines 188 to 206 (createAndBuy) and lines 226 to 247 (buy), which share
this exact structure.  The loop runs for i = 0 while i < MAX_RETRIES;
rem is the number of loop iterations remaining after the current one,
so rem = 0 means i = MAX_RETRIES - 1.  A returned result with success
breaks out of the loop; a returned non-success result falls through to
the next iteration with no delay; a thrown error on the last iteration
propagates, and otherwise sleeps RETRY_DELAY and retries.  Falling out
of the loop leaves the last non-success result (ok false). -/
def sdkRetryGo (oracle : ℕ → SdkAttempt) : ℕ → ℕ → List RetryEvent × Except String Bool
  | _, 0 => ([], .ok false)
  | i, rem + 1 =>
    match oracle i with
    | .returns true => ([.attempt i], .ok true)
    | .returns false =>
      let r := sdkRetryGo oracle (i + 1) rem
      (.attempt i :: r.1, r.2)
    | .throws e =>
      if rem = 0 then ([.attempt i], .error e)
      else
        let r := sdkRetryGo oracle (i + 1) rem
        (.attempt i :: .sleep RETRY_DELAY :: r.1, r.2)

/-- sdkRetryLoop runs the SDK retry loop from the first attempt with the
full MAX_RETRIES budget. -/
def sdkRetryLoop (oracle : ℕ → SdkAttempt) : List RetryEvent × Except String Bool :=
  sdkRetryGo oracle 0 MAX_RETRIES

/-- blockhashRetryGo is the blockhash fetch loop shared (textually
duplicated) by getBlockhashWithRetry in create-sol/route.ts lines 24 to
42 (delay RETRY_DELAY) and by the funding blockhash loop of
CreateAgentForm.tsx lines 153 to 166 (delay FORM_RETRY_DELAY).  Each
oracle entry is one getLatestBlockhash call returning a blockhash and a
lastValidBlockHeight or throwing.  On success the returned height is the
fetched height plus 150; a failure on the last attempt propagates, and
otherwise the loop sleeps the given delay and retries.  The fuel zero
case is the unreachable fall-through after the loop (create-sol line 41
throws there). -/
def blockhashRetryGo (delay : ℕ) (oracle : ℕ → Except String (String × ℕ)) :
    ℕ → ℕ → List RetryEvent × Except String (String × ℕ)
  | _, 0 => ([], .error "Failed to get blockhash after retries")
  | i, rem + 1 =>
    match oracle i with
    | .ok (bh, h) => ([.attempt i], .ok (bh, h + 150))
    | .error e =>
      if rem = 0 then ([.attempt i], .error e)
      else
        let r := blockhashRetryGo delay oracle (i + 1) rem
        (.attempt i :: .sleep delay :: r.1, r.2)

/-- getBlockhashWithRetry models the helper of create-sol/route.ts lines
24 to 42 called with the default retries = MAX_RETRIES. -/
def getBlockhashWithRetry (oracle : ℕ → Except String (String × ℕ)) :
    List RetryEvent × Except String (String × ℕ) :=
  blockhashRetryGo RETRY_DELAY oracle 0 MAX_RETRIES

/-- formFundingBlockhash models the inline blockhash loop of
CreateAgentForm.tsx lines 153 to 166 (MAX_RETRIES attempts, delay
FORM_RETRY_DELAY, margin 150). -/
def formFundingBlockhash (oracle : ℕ → Except String (String × ℕ)) :
    List RetryEvent × Except String (String × ℕ) :=
  blockhashRetryGo FORM_RETRY_DELAY oracle 0 MAX_RETRIES

/-- connectGo is the connection retry loop of create-sol/route.ts lines
79 to 92 and CreateAgentForm.tsx lines 107 to 119: while there is no
connection and fewer than MAX_RETRIES failures, try to construct the
connection; every failure sleeps the given delay before the condition is
rechecked.  The fuel zero case is the loop exiting without a
connection. -/
def connectGo (delay : ℕ) (ok : ℕ → Bool) : ℕ → ℕ → List RetryEvent × Bool
  | _, 0 => ([], false)
  | i, rem + 1 =>
    if ok i then ([.attempt i], true)
    else
      let r := connectGo delay ok (i + 1) rem
      (.attempt i :: .sleep delay :: r.1, r.2)

/-- Ev is an externally visible action of the create-sol POST handler. -/
inductive Ev where
  | upload
  | connect
  | getBalance (lamports : ℕ)
  | sleep (ms : ℕ)
  | sdkCreateAndBuy (creator mintPub : String) (buyLamports : ℤ)
  | sdkBuy (buyer mintPub : String) (buyLamports : ℤ) (slippageBasisPoints : ℤ)
deriving DecidableEq

/-- connectEv renders a connection loop step as a create-sol event. -/
def connectEv (e : RetryEvent) : Ev :=
  match e with
  | .attempt _ => .connect
  | .sleep ms => .sleep ms

/-- createAttemptEv renders a createAndBuy retry step as a create-sol
event carrying the call arguments of line 190 to 195: creator keypair,
mint keypair, and the fixed initial buy amount. -/
def createAttemptEv (creator mintPub : String) (amt : ℤ) (e : RetryEvent) : Ev :=
  match e with
  | .attempt _ => .sdkCreateAndBuy creator mintPub amt
  | .sleep ms => .sleep ms

/-- buyAttemptEv renders a buy retry step as a create-sol event carrying
the call arguments of lines 228 to 233: buy-back keypair, mint public
key, fixed buy amount and slippage. -/
def buyAttemptEv (buyer mintPub : String) (amt slippage : ℤ) (e : RetryEvent) : Ev :=
  match e with
  | .attempt _ => .sdkBuy buyer mintPub amt slippage
  | .sleep ms => .sleep ms

/-- waitForBalanceGo models waitForBalance of create-sol/route.ts lines
44 to 58: up to maxAttempts balance polls; a poll at or above the
expected amount returns true at once, otherwise the loop sleeps 1000 ms;
exhaustion returns false. -/
def waitForBalanceGo (balances : ℕ → ℕ) (expected : Frac) : ℕ → ℕ → List Ev × Bool
  | _, 0 => ([], false)
  | i, rem + 1 =>
    let b := balances i
    if fracLe expected (fracOfNat b) then ([.getBalance b], true)
    else
      let r := waitForBalanceGo balances expected (i + 1) rem
      (.getBalance b :: .sleep 1000 :: r.1, r.2)

/-- WalletData is the client-supplied walletData JSON parsed at
create-sol/route.ts line 76: raw secret key bytes for the spend keypair
and the mint keypair plus a public key string. -/
structure WalletData where
  keypair : List ℕ
  mint : List ℕ
  publicKey : String
deriving DecidableEq

/-- SolResp is the JSON response shape of the create-sol POST handler. -/
structure SolResp where
  success : Bool
  tokenUrl : Option String
  error : Option String
  status : ℕ
deriving DecidableEq

/-- okSolResp is the success response of create-sol/route.ts line 259. -/
def okSolResp (url : String) : SolResp := ⟨true, some url, none, 200⟩

/-- errSolResp is the catch-all error response of create-sol/route.ts
lines 267 to 275: status 500 with the error message. -/
def errSolResp (e : String) : SolResp := ⟨false, none, some e, 500⟩

/-- SolEnv is the part of the process environment the create-sol handler
reads for the buy-back step. -/
structure SolEnv where
  buyBackPrivateKey : Option String

/-- SolWorld fixes the outcome of every external interaction of one
create-sol POST run, in program order. -/
structure SolWorld where
  uploadResult : Except String String
  walletData : Option WalletData
  connectOk : ℕ → Bool
  balances : ℕ → ℕ
  balanceAfter : ℕ
  createAttempts : ℕ → SdkAttempt
  buyAttempts : ℕ → SdkAttempt

/-- SolOut is the observable outcome of a create-sol POST run: the event
trace, the JSON response, and whether a createAndBuy attempt succeeded
on chain (an irreversible effect the handler never undoes). -/
structure SolOut where
  events : List Ev
  resp : SolResp
  minted : Bool

/-- solAfterMint is the tail of the create-sol POST after a successful
createAndBuy (route lines 212 to 259): derive the token url from the
mint public key, require NEXT_PUBLIC_BUY_BACK_PRIVATE_KEY, decode the
buy-back keypair, run the buy retry loop, and answer.  There is no
rollback of the mint in any failure branch. -/
def solAfterMint (env : SolEnv) (pubOfB58 : String → String) (mintPub : String)
    (w : SolWorld) : List Ev × SolResp :=
  match env.buyBackPrivateKey with
  | none => ([], errSolResp "Buyer private key not found")
  | some sk =>
    match buyBackLamports with
    | none => ([], errSolResp "RangeError")
    | some amt =>
      let r := sdkRetryLoop w.buyAttempts
      let tr := r.1.map (buyAttemptEv (pubOfB58 sk) mintPub amt SLIPPAGE_BASIS_POINTS)
      match r.2 with
      | .error e => (tr, errSolResp e)
      | .ok true => (tr, okSolResp ("https://pump.fun/" ++ mintPub))
      | .ok false => (tr, errSolResp "Additional buy transaction failed after all retries")

/-- solAfterBalance is the create-sol POST from the createAndBuy retry
loop on (route lines 186 to 259), entered once the funded balance has
been observed.  pubOf derives a public key from secret key bytes
(Keypair.fromSecretKey). -/
def solAfterBalance (env : SolEnv) (pubOf : List ℕ → String) (pubOfB58 : String → String)
    (wd : WalletData) (w : SolWorld) : List Ev × SolResp × Bool :=
  match createAndBuyLamports with
  | none => ([], errSolResp "RangeError", false)
  | some amt =>
    let r := sdkRetryLoop w.createAttempts
    let tr := r.1.map (createAttemptEv (pubOf wd.keypair) (pubOf wd.mint) amt)
    match r.2 with
    | .error e => (tr, errSolResp e, false)
    | .ok false => (tr, errSolResp "Token creation failed after all retries", false)
    | .ok true =>
      let m := solAfterMint env pubOfB58 (pubOf wd.mint) w
      (tr ++ m.1, m.2, true)

/-- createSolPOST models the POST handler of create-sol/route.ts: form
upload, walletData parse, connection retry loop, funded balance wait,
then the createAndBuy retry loop and the buy-back step.  Any thrown
error is answered by the catch-all with status 500. -/
def createSolPOST (env : SolEnv) (pubOf : List ℕ → String) (pubOfB58 : String → String)
    (w : SolWorld) : SolOut :=
  match w.uploadResult with
  | .error e => ⟨[], errSolResp e, false⟩
  | .ok _hash =>
    match w.walletData with
    | none => ⟨[.upload], errSolResp "No wallet data provided", false⟩
    | some wd =>
      let c := connectGo RETRY_DELAY w.connectOk 0 MAX_RETRIES
      let ctr := c.1.map connectEv
      if c.2 then
        let b := waitForBalanceGo w.balances MINIMUM_BALANCE_REQUIRED 0 10
        if b.2 then
          let t1 := Ev.upload :: ctr ++ b.1 ++ [Ev.getBalance w.balanceAfter]
          let rest := solAfterBalance env pubOf pubOfB58 wd w
          ⟨t1 ++ rest.1, rest.2.1, rest.2.2⟩
        else ⟨Ev.upload :: ctr ++ b.1, errSolResp "Insufficient balance after waiting", false⟩
      else ⟨Ev.upload :: ctr, errSolResp "Failed to establish connection", false⟩

/-- MEv is an externally visible action of the authenticated memecoin
route (unnamed/part_001). -/
inductive MEv where
  | generateWallet
  | buildTransfer (fromPub toPub : String) (lamports : Frac)
  | getBlockhash
  | send
  | confirmTx
  | storeTokens
  | createSolFetch
deriving DecidableEq

/-- MTx is the funding transfer transaction as built by unnamed/part_001
lines 88 to 101: transfer instruction fields and the blockhash fields
assigned directly from getLatestBlockhash with no height margin. -/
structure MTx where
  fromPub : String
  toPub : String
  lamports : Frac
  recentBlockhash : String
  lastValidBlockHeight : ℕ
  feePayer : String
deriving DecidableEq

/-- MemeWorld fixes the outcome of every external interaction of one
memecoin route run, in program order.  agentBalance is the balance of
the agent funding account in the world; the handler never reads it. -/
structure MemeWorld where
  bodyOk : Bool
  genWallet : Except String String
  agentBalance : ℕ
  blockhashRes : Except String (String × ℕ)
  sendRes : Except String String
  confirmRes : Except String Unit
  storeRes : Except String String
  createSolRes : Except String Bool

/-- MOut is the observable outcome of a memecoin route run. -/
structure MOut where
  events : List MEv
  status : ℕ
  errorBody : Option String
  tx : Option MTx
deriving DecidableEq

/-- memeErr is the catch-all answer of unnamed/part_001 lines 148 to 151:
status 500 with a fixed error body, keeping the trace accumulated so
far. -/
def memeErr (events : List MEv) (tx : Option MTx) : MOut :=
  ⟨events, 500, some "Token creation failed", tx⟩

/-- memecoinPOST models the POST handler of unnamed/part_001: bearer
token check, body parse, wallet generation, funding transfer build and
submit with a single unretried blockhash fetch and no balance
precondition, confirmation, token record store, then the create-sol
fetch.  pubOfB58 derives a public key from a base58 secret key. -/
def memecoinPOST (apiKey : String) (agentWallet : Option String)
    (pubOfB58 : String → String) (authHeader : Option String) (w : MemeWorld) : MOut :=
  if (match authHeader with | none => true | some a => a ≠ "Bearer " ++ apiKey) then
    ⟨[], 401, some "Unauthorized", none⟩
  else if w.bodyOk = false then memeErr [] none
  else
    match w.genWallet with
    | .error _ => memeErr [.generateWallet] none
    | .ok walletPub =>
      match agentWallet with
      | none => memeErr [.generateWallet] none
      | some sk =>
        let agentPub := pubOfB58 sk
        let t1 : List MEv := [.generateWallet, .buildTransfer agentPub walletPub BASE_AMOUNT_MEME, .getBlockhash]
        match w.blockhashRes with
        | .error _ => memeErr t1 none
        | .ok (bh, h) =>
          let tx : MTx := ⟨agentPub, walletPub, BASE_AMOUNT_MEME, bh, h, agentPub⟩
          match w.sendRes with
          | .error _ => memeErr (t1 ++ [.send]) (some tx)
          | .ok _sig =>
            match w.confirmRes with
            | .error _ => memeErr (t1 ++ [.send, .confirmTx]) (some tx)
            | .ok _ =>
              match w.storeRes with
              | .error _ => memeErr (t1 ++ [.send, .confirmTx, .storeTokens]) (some tx)
              | .ok _tokenId =>
                let t2 := t1 ++ [.send, .confirmTx, .storeTokens, .createSolFetch]
                match w.createSolRes with
                | .error _ => memeErr t2 (some tx)
                | .ok false => memeErr t2 (some tx)
                | .ok true => ⟨t2, 200, none, some tx⟩

/-- FEv is an externally visible action of the client form submission
flow (CreateAgentForm.tsx handleSubmitSOL). -/
inductive FEv where
  | connect
  | sleep (ms : ℕ)
  | getBalance (lamports : ℕ)
  | buildTransfer (lamports : Frac)
  | getBlockhash
  | signTx
  | send
  | confirmTx
  | createTokenFetch
  | storeFetch
deriving DecidableEq

/-- FormRes distinguishes the three exits of handleSubmitSOL: a guard
return before the try block (toast only), a caught error recorded via
setError, and a completed run. -/
inductive FormRes where
  | earlyReturn
  | errorSet (msg : String)
  | done
deriving DecidableEq

/-- formConnectEv renders a connection loop step as a form event. -/
def formConnectEv (e : RetryEvent) : FEv :=
  match e with
  | .attempt _ => .connect
  | .sleep ms => .sleep ms

/-- formBlockhashEv renders a blockhash loop step as a form event. -/
def formBlockhashEv (e : RetryEvent) : FEv :=
  match e with
  | .attempt _ => .getBlockhash
  | .sleep ms => .sleep ms

/-- FormWorld fixes the outcome of every external interaction of one
form submission, in program order. -/
structure FormWorld where
  connectOk : ℕ → Bool
  fundingBalance : ℕ
  blockhashAttempts : ℕ → Except String (String × ℕ)
  sendRes : Except String String
  confirmRes : Except String Unit
  newWalletBalance : ℕ
  createTokenRes : Except String String
  tbBalance : ℕ
  tbBlockhash : Except String (String × ℕ)
  tbSendRes : Except String String
  tbConfirmRes : Except String Unit
  tbFinalBalance : ℕ
  storeRes : Except String Bool

/-- transferBackEvents is the inner remaining-balance transfer block of
CreateAgentForm.tsx lines 195 to 244, entered when
NEXT_PUBLIC_PRIVATE_KEY is set.  Every error inside is caught and
swallowed (a toast only), so the block contributes events but never an
exit: fetch the remaining balance, and when it exceeds the estimated
fee, build, fetch one blockhash with no retry and no margin, sign,
send and confirm the sweep transfer. -/
def transferBackEvents (w : FormWorld) : List FEv :=
  FEv.getBalance w.tbBalance ::
    (if 0 < (w.tbBalance : ℤ) - 5000 then
      FEv.buildTransfer ⟨(w.tbBalance : ℤ) - 5000, 1⟩ :: FEv.getBlockhash ::
        (match w.tbBlockhash with
         | .error _ => []
         | .ok _ =>
           FEv.signTx :: FEv.send ::
             (match w.tbSendRes with
              | .error _ => []
              | .ok _ =>
                match w.tbConfirmRes with
                | .error _ => [FEv.confirmTx]
                | .ok _ => [FEv.confirmTx, FEv.getBalance w.tbFinalBalance]))
    else [])

/-- handleSubmitSOL models the client form submission flow of
CreateAgentForm.tsx lines 83 to 277: wallet, file and name guards, a
connection retry loop, the funding balance precondition, the funding
transfer (build, blockhash retry loop with margin 150, sign, send,
confirm), the create-sol call, the optional balance sweep, and the
token record store. -/
def handleSubmitSOL (connectedKey : Option String) (hasFile : Bool)
    (tokenName tokenSymbol : String) (signAvail : Bool)
    (basePrivateKey : Option String) (w : FormWorld) : List FEv × FormRes :=
  match connectedKey with
  | none => ([], .earlyReturn)
  | some _pk =>
    if hasFile = false then ([], .earlyReturn)
    else if tokenName = "" ∨ tokenSymbol = "" then ([], .earlyReturn)
    else
      let c := connectGo FORM_RETRY_DELAY w.connectOk 0 MAX_RETRIES
      let ctr := c.1.map formConnectEv
      if c.2 then
        let b := w.fundingBalance
        if fracLt (fracOfNat b) BASE_AMOUNT_FORM then
          (ctr ++ [.getBalance b], .errorSet "Insufficient balance in main wallet")
        else
          let t1 := ctr ++ [FEv.getBalance b, FEv.buildTransfer BASE_AMOUNT_FORM]
          let bh := formFundingBlockhash w.blockhashAttempts
          let bhtr := bh.1.map formBlockhashEv
          match bh.2 with
          | .error e => (t1 ++ bhtr, .errorSet e)
          | .ok _bhv =>
            if signAvail = false then (t1 ++ bhtr, .errorSet "Wallet adapter not connected")
            else
              let t2 := t1 ++ bhtr ++ [FEv.signTx, FEv.send]
              match w.sendRes with
              | .error e => (t2, .errorSet e)
              | .ok _sig =>
                match w.confirmRes with
                | .error e => (t2 ++ [.confirmTx], .errorSet e)
                | .ok _ =>
                  let t3 := t2 ++ [FEv.confirmTx, FEv.getBalance w.newWalletBalance, FEv.createTokenFetch]
                  match w.createTokenRes with
                  | .error e => (t3, .errorSet e)
                  | .ok _url =>
                    let t4 := t3 ++ (match basePrivateKey with
                                     | none => []
                                     | some _ => transferBackEvents w)
                    match w.storeRes with
                    | .error e => (t4 ++ [.storeFetch], .errorSet e)
                    | .ok false => (t4 ++ [.storeFetch], .errorSet "Failed to store token data")
                    | .ok true => (t4 ++ [.storeFetch], .done)
      else (ctr, .errorSet "Failed to establish connection")

/-- TokensBody is the parsed JSON body of the tokens POST route; every
field may be absent (undefined). -/
structure TokensBody where
  tokenName : Option String
  tokenSymbol : Option String
  tokenDescription : Option String
  imageUrl : Option String
  twitterLink : Option String
  websiteLink : Option String
  telegramLink : Option String
  fundingWallet : Option String
  fundingSignature : Option String
  solAmount : Option String
  targetWallet : Option String
deriving DecidableEq

/-- jsFalsyStr models JavaScript truthiness testing of an optional
string: absent (undefined or null) and the empty string are falsy. -/
def jsFalsyStr (s : Option String) : Bool :=
  match s with
  | none => true
  | some v => v = ""

/-- TokenDoc is the document inserted by tokens/route.ts lines 22 to 35. -/
structure TokenDoc where
  tokenName : Option String
  tokenSymbol : Option String
  tokenDescription : Option String
  imageUrl : Option String
  twitterLink : Option String
  websiteLink : Option String
  telegramLink : Option String
  fundingWallet : Option String
  fundingSignature : Option String
  solAmount : Option String
  targetWallet : Option String
  createdAt : ℕ
deriving DecidableEq

/-- TokensResp is the JSON response shape of the tokens POST route. -/
structure TokensResp where
  status : ℕ
  success : Bool
  error : Option String
  tokenId : Option String
deriving DecidableEq

/-- tokensPOST models the POST handler of tokens/route.ts: await the
database client, parse the body, reject with 400 when targetWallet is
falsy, otherwise build the document and insert it.  The returned list
holds the documents written to storage.  dbOk is the database client
promise resolving, parseOk the body parse succeeding, insertOk the
insert succeeding; now is the clock read for createdAt and insertedId
the identifier minted by the store. -/
def tokensPOST (dbOk parseOk : Bool) (body : TokensBody) (now : ℕ)
    (insertOk : Bool) (insertedId : String) : List TokenDoc × TokensResp :=
  if dbOk = false then ([], ⟨500, false, some "Failed to store token data", none⟩)
  else if parseOk = false then ([], ⟨500, false, some "Failed to store token data", none⟩)
  else if jsFalsyStr body.targetWallet then
    ([], ⟨400, false, some "Missing target wallet data", none⟩)
  else
    let doc : TokenDoc := ⟨body.tokenName, body.tokenSymbol, body.tokenDescription,
      body.imageUrl, body.twitterLink, body.websiteLink, body.telegramLink,
      body.fundingWallet, body.fundingSignature, body.solAmount, body.targetWallet, now⟩
    if insertOk then ([doc], ⟨200, true, none, some insertedId⟩)
    else ([], ⟨500, false, some "Failed to store token data", none⟩)

/-- KeysDoc is the document inserted into the keys collection by
generate-wallet/route.ts lines 19 to 26: both raw secret keys, both
public keys, the fresh wallet id and the creation time. -/
structure KeysDoc where
  walletId : String
  keypair : List ℕ
  mint : List ℕ
  publicKey : String
  mintPublicKey : String
  createdAt : ℕ
deriving DecidableEq

/-- GenWalletData is the data object of the generate-wallet response
(route lines 28 to 33): only the wallet id, the two public keys and the
required amount; no secret bytes. -/
structure GenWalletData where
  id : String
  publicKey : String
  mintPublicKey : String
  requiredAmount : Frac
deriving DecidableEq

/-- GenWalletResp is the JSON response shape of generate-wallet. -/
structure GenWalletResp where
  success : Bool
  data : Option GenWalletData
  error : Option String
  status : ℕ
deriving DecidableEq

/-- generateWalletPOST models the POST handler of
generate-wallet/route.ts: await the database client, generate the spend
and mint keypairs (their secret bytes and public keys are inputs here),
mint a fresh wallet id, insert the keys document, and answer with the
wallet info.  The returned list holds the documents written. -/
def generateWalletPOST (dbOk : Bool) (newSecret : List ℕ) (newPub : String)
    (mintSecret : List ℕ) (mintPub : String) (walletId : String) (now : ℕ)
    (insertOk : Bool) : List KeysDoc × GenWalletResp :=
  if dbOk = false then ([], ⟨false, none, some "Failed to generate wallet", 500⟩)
  else
    let doc : KeysDoc := ⟨walletId, newSecret, mintSecret, newPub, mintPub, now⟩
    if insertOk then
      ([doc], ⟨true, some ⟨walletId, newPub, mintPub, requiredAmountValue⟩, none, 200⟩)
    else ([], ⟨false, none, some "Failed to generate wallet", 500⟩)

/-- lookupKeys retrieves a keys document by wallet id, first match
wins (the store is keyed by walletId). -/
def lookupKeys (store : List KeysDoc) (id : String) : Option KeysDoc :=
  store.find? (fun d => d.walletId == id)

/-- FieldVal is a scalar JSON value of a request or response payload. -/
inductive FieldVal where
  | s (v : String)
  | n (v : Frac)
  | b (v : Bool)
  | bytes (v : List ℕ)
  | nullv
deriving DecidableEq

/-- Entry is a top-level payload entry: a scalar, a nested object of
scalars, or an array of objects of scalars.  This covers every payload
shape the handlers exchange. -/
inductive Entry where
  | leaf (v : FieldVal)
  | obj (fields : List (String × FieldVal))
  | objArr (items : List (List (String × FieldVal)))
deriving DecidableEq

/-- Payload is a JSON object sent between client and server. -/
abbrev Payload := List (String × Entry)

/-- optFieldStr renders an optional string document field as a JSON
scalar (absent fields serialize as null). -/
def optFieldStr (v : Option String) : FieldVal :=
  match v with
  | none => .nullv
  | some t => .s t

/-- secretArraysOfField collects the raw byte arrays of one scalar. -/
def secretArraysOfField (v : FieldVal) : List (List ℕ) :=
  match v with
  | .bytes a => [a]
  | _ => []

/-- secretArraysOfFields collects the raw byte arrays of an object. -/
def secretArraysOfFields (fs : List (String × FieldVal)) : List (List ℕ) :=
  fs.foldr (fun p acc => secretArraysOfField p.2 ++ acc) []

/-- secretArraysOfEntry collects the raw byte arrays of one entry. -/
def secretArraysOfEntry (e : Entry) : List (List ℕ) :=
  match e with
  | .leaf v => secretArraysOfField v
  | .obj fs => secretArraysOfFields fs
  | .objArr items => items.foldr (fun fs acc => secretArraysOfFields fs ++ acc) []

/-- secretArrays collects every raw byte array appearing anywhere in a
payload, in field order.  Secret key material in these payloads occurs
exactly as raw byte arrays. -/
def secretArrays (p : Payload) : List (List ℕ) :=
  p.foldr (fun e acc => secretArraysOfEntry e.2 ++ acc) []

/-- WalletInfoC is the client-side WalletInfo value of types.ts lines 1
to 8, holding the secret key bytes of the generated spend keypair and
mint keypair. -/
structure WalletInfoC where
  name : String
  publicKey : String
  balance : Frac
  keypair : List ℕ
  mint : List ℕ
  tokenUrl : Option String
deriving DecidableEq

/-- optStrEntry renders an optional form field appended only when the
value is present (CreateAgentForm.tsx lines 62 to 64). -/
def optStrEntry (name : String) (v : Option String) : List (String × Entry) :=
  match v with
  | none => []
  | some t => [(name, .leaf (.s t))]

/-- generateWalletResponsePayload is the response JSON of
generate-wallet/route.ts lines 35 to 38 rendered as a payload. -/
def generateWalletResponsePayload (walletId pub mintPub : String) : Payload :=
  [("success", .leaf (.b true)),
   ("data", .obj [("id", .s walletId), ("publicKey", .s pub),
                  ("mintPublicKey", .s mintPub), ("requiredAmount", .n requiredAmountValue)])]

/-- createSolRequestPayload is the multipart form body built by
createToken in CreateAgentForm.tsx lines 44 to 69: the image file, the
token fields, and walletData carrying the raw secret key bytes of the
spend and mint keypairs (lines 54 to 60). -/
def createSolRequestPayload (w : WalletInfoC) (tokenName tokenSymbol tokenDesc : String)
    (twitterLink websiteLink telegramLink : Option String) : Payload :=
  [("file", .leaf .nullv),
   ("tokenName", .leaf (.s tokenName)),
   ("tokenSymbol", .leaf (.s tokenSymbol)),
   ("tokenDescription", .leaf (.s tokenDesc)),
   ("walletData", .obj [("keypair", .bytes w.keypair), ("mint", .bytes w.mint),
                        ("publicKey", .s w.publicKey)])]
  ++ optStrEntry "twitterLink" twitterLink
  ++ optStrEntry "websiteLink" websiteLink
  ++ optStrEntry "telegramLink" telegramLink

/-- walletInfoFields renders a WalletInfo value as the object the form
embeds in the tokens request (CreateAgentForm.tsx line 255). -/
def walletInfoFields (w : WalletInfoC) : List (String × FieldVal) :=
  [("name", .s w.name), ("publicKey", .s w.publicKey), ("balance", .n w.balance),
   ("keypair", .bytes w.keypair), ("mint", .bytes w.mint)]
  ++ (match w.tokenUrl with
      | none => []
      | some u => [("tokenUrl", .s u)])

/-- tokensRequestFormPayload is the tokens request body built by the
form at CreateAgentForm.tsx lines 247 to 263, whose wallets field embeds
the generated wallet with its raw secret key bytes. -/
def tokensRequestFormPayload (tokenName tokenSymbol tokenDesc : String)
    (imageUrl : Option String) (twitterLink websiteLink telegramLink : String)
    (w : WalletInfoC) (fundingWallet : String) : Payload :=
  [("tokenName", .leaf (.s tokenName)),
   ("tokenSymbol", .leaf (.s tokenSymbol)),
   ("tokenDescription", .leaf (.s tokenDesc)),
   ("imageUrl", .leaf (optFieldStr imageUrl)),
   ("twitterLink", .leaf (.s twitterLink)),
   ("websiteLink", .leaf (.s websiteLink)),
   ("telegramLink", .leaf (.s telegramLink)),
   ("wallets", .objArr [walletInfoFields w]),
   ("fundingWallet", .leaf (.s fundingWallet))]

/-- tokensResponsePayload is the response JSON of tokens/route.ts lines
40 to 44: success flag, the inserted document (string fields only, as
built at lines 22 to 35) and the token id.  No secret bytes occur. -/
def tokensResponsePayload (d : TokenDoc) (tokenId : String) : Payload :=
  [("success", .leaf (.b true)),
   ("data", .obj [("tokenName", optFieldStr d.tokenName),
                  ("tokenSymbol", optFieldStr d.tokenSymbol),
                  ("tokenDescription", optFieldStr d.tokenDescription),
                  ("imageUrl", optFieldStr d.imageUrl),
                  ("twitterLink", optFieldStr d.twitterLink),
                  ("websiteLink", optFieldStr d.websiteLink),
                  ("telegramLink", optFieldStr d.telegramLink),
                  ("fundingWallet", optFieldStr d.fundingWallet),
                  ("fundingSignature", optFieldStr d.fundingSignature),
                  ("solAmount", optFieldStr d.solAmount),
                  ("targetWallet", optFieldStr d.targetWallet)]),
   ("tokenId", .leaf (.s tokenId))]

/-- ProbeAttempt is the outcome of one market-data poll of the price
probe: the request fails, the response has no pairs, or it carries a
price. -/
inductive ProbeAttempt where
  | requestFailed
  | noPairs
  | price (p : Frac)

/-- ProbeEv is one step of the price probe: a poll or a backoff sleep. -/
inductive ProbeEv where
  | poll (i : ℕ)
  | sleep (ms : ℕ)
deriving DecidableEq

/-- usablePrice tests whether a poll outcome carries a strictly positive
price. -/
def usablePrice (a : ProbeAttempt) : Bool :=
  match a with
  | .price p => fracLt ⟨0, 1⟩ p
  | _ => false

/-- probeValue extracts the price of a poll outcome when present. -/
def probeValue (a : ProbeAttempt) : Option Frac :=
  match a with
  | .price p => some p
  | _ => none

/-- Modelled from the spec: the PriceProbe component (spec section 4.4)
is not present under src of this repository; only the workflow around it
is.  Per the spec it polls the market-data endpoint up to 5 times,
accepts the first strictly positive price, sleeps 3000 ms after an
empty result and 5000 ms after a request error, and returns null (none)
rather than throwing when the budget is exhausted.  priceProbeGo is the
poll loop with rem polls remaining. -/
def priceProbeGo (oracle : ℕ → ProbeAttempt) : ℕ → ℕ → List ProbeEv × Option Frac
  | _, 0 => ([], none)
  | i, rem + 1 =>
    match oracle i with
    | .price p =>
      if fracLt ⟨0, 1⟩ p then ([.poll i], some p)
      else
        let r := priceProbeGo oracle (i + 1) rem
        (.poll i :: .sleep 3000 :: r.1, r.2)
    | .noPairs =>
      let r := priceProbeGo oracle (i + 1) rem
      (.poll i :: .sleep 3000 :: r.1, r.2)
    | .requestFailed =>
      let r := priceProbeGo oracle (i + 1) rem
      (.poll i :: .sleep 5000 :: r.1, r.2)

/-- Modelled from the spec: priceProbe runs the poll loop with the full
budget of 5 attempts.  Its type has no error channel: it returns an
optional price and never throws. -/
def priceProbe (oracle : ℕ → ProbeAttempt) : List ProbeEv × Option Frac :=
  priceProbeGo oracle 0 5

/-- TokenRecordFinal is the finalized token record part the probe
affects: the token url and the optional initial price. -/
structure TokenRecordFinal where
  tokenUrl : Option String
  initialPriceInSol : Option Frac
deriving DecidableEq

/-- Modelled from the spec: after a successful mint the workflow runs
the price probe and finalizes the token record with the token url and
whatever the probe returned; a probe miss (none) still finalizes the
record with the url set (spec sections 4.4 and 4.5). -/
def mintThenPriceProbe (oracle : ℕ → ProbeAttempt) (tokenUrl : String) : TokenRecordFinal :=
  ⟨some tokenUrl, (priceProbe oracle).2⟩

/-- countPolls counts the poll events of a probe trace. -/
def countPolls (t : List ProbeEv) : ℕ :=
  t.countP (fun e => match e with | .poll _ => true | .sleep _ => false)

/-- Evaluation of the initial buy amount: BigInt(0.0001 * LAMPORTS_PER_SOL)
is exactly 100000 lamports (the float product rounds to the integer). -/
theorem createAndBuyLamports_eq : createAndBuyLamports = some 100000 := by decide

/-- Evaluation of the buy-back amount: BigInt(3.1 * LAMPORTS_PER_SOL) is
exactly 3100000000 lamports. -/
theorem buyBackLamports_eq : buyBackLamports = some 3100000000 := by decide

/-- Evaluation of the generate-wallet required amount: 3.125 SOL exactly. -/
theorem requiredAmountValue_eq : fracEq requiredAmountValue ⟨3125, 1000⟩ = true := by decide

/-- Evaluation: the memecoin funding amount is strictly positive. -/
theorem baseAmountMeme_pos : fracLt ⟨0, 1⟩ BASE_AMOUNT_MEME = true := by decide

/-- Evaluation: the form funding amount is strictly positive. -/
theorem baseAmountForm_pos : fracLt ⟨0, 1⟩ BASE_AMOUNT_FORM = true := by decide

/-- A retry loop makes at most fuel attempts. -/
theorem sdkRetryGo_attempts_le (o : ℕ → SdkAttempt) :
    ∀ fuel i, countAttempts (sdkRetryGo o i fuel).1 ≤ fuel := by
  intro fuel
  induction fuel with
  | zero => intro i; simp [sdkRetryGo, countAttempts]
  | succ n ih =>
    intro i
    simp only [sdkRetryGo]
    cases h : o i with
    | returns b =>
      cases b with
      | true => simp [countAttempts, List.countP_cons]
      | false =>
        have hx := ih (i + 1)
        simp [countAttempts, List.countP_cons] at hx ⊢
        omega
    | throws e =>
      by_cases hr : n = 0
      · simp [hr, countAttempts, List.countP_cons]
      · have hx := ih (i + 1)
        simp [hr, countAttempts, List.countP_cons] at hx ⊢
        omega

/-- Every sleep event a retry loop emits has duration RETRY_DELAY. -/
theorem sdkRetryGo_sleep_val (o : ℕ → SdkAttempt) :
    ∀ fuel i ms, RetryEvent.sleep ms ∈ (sdkRetryGo o i fuel).1 → ms = RETRY_DELAY := by
  intro fuel
  induction fuel with
  | zero => intro i ms h; simp [sdkRetryGo] at h
  | succ n ih =>
    intro i ms h
    simp only [sdkRetryGo] at h
    cases ho : o i with
    | returns b =>
      rw [ho] at h
      cases b with
      | true => simp at h
      | false =>
        simp only [List.mem_cons] at h
        rcases h with h | h
        · exact absurd h (by simp)
        · exact ih (i + 1) ms h
    | throws e =>
      rw [ho] at h
      by_cases hr : n = 0
      · simp [hr] at h
      · simp only [hr, if_false, List.mem_cons] at h
        rcases h with h | h | h
        · exact absurd h (by simp)
        · exact RetryEvent.sleep.inj h
        · exact ih (i + 1) ms h

/-- If no attempt throws, a retry loop never sleeps. -/
theorem sdkRetryGo_no_throw_no_sleep (o : ℕ → SdkAttempt)
    (hall : ∀ j, isThrow (o j) = false) :
    ∀ fuel i, countSleeps (sdkRetryGo o i fuel).1 = 0 := by
  intro fuel
  induction fuel with
  | zero => intro i; simp [sdkRetryGo, countSleeps]
  | succ n ih =>
    intro i
    simp only [sdkRetryGo]
    cases ho : o i with
    | returns b =>
      cases b with
      | true => simp [countSleeps, List.countP_cons]
      | false =>
        have hx := ih (i + 1)
        simp [countSleeps, List.countP_cons] at hx ⊢
        exact hx
    | throws e =>
      have hx := hall i
      rw [ho] at hx
      simp [isThrow] at hx

/-- A retry loop that ends in a success made at least one attempt. -/
theorem sdkRetryGo_ok_attempt (o : ℕ → SdkAttempt) :
    ∀ fuel i, (sdkRetryGo o i fuel).2 = .ok true →
      ∃ j, RetryEvent.attempt j ∈ (sdkRetryGo o i fuel).1 := by
  intro fuel
  induction fuel with
  | zero => intro i h; simp [sdkRetryGo] at h
  | succ n ih =>
    intro i h
    simp only [sdkRetryGo] at h ⊢
    cases ho : o i with
    | returns b =>
      rw [ho] at h
      cases b with
      | true => exact ⟨i, by simp⟩
      | false =>
        obtain ⟨j, hj⟩ := ih (i + 1) (by simpa using h)
        exact ⟨j, by simp [hj]⟩
    | throws e =>
      rw [ho] at h
      by_cases hr : n = 0
      · simp [hr] at h
      · simp only [hr, if_false] at h
        obtain ⟨j, hj⟩ := ih (i + 1) (by simpa using h)
        exact ⟨j, by simp [hr, hj]⟩

/-- A blockhash retry loop makes at most fuel attempts. -/
theorem blockhashRetryGo_attempts_le (d : ℕ) (o : ℕ → Except String (String × ℕ)) :
    ∀ fuel i, countAttempts (blockhashRetryGo d o i fuel).1 ≤ fuel := by
  intro fuel
  induction fuel with
  | zero => intro i; simp [blockhashRetryGo, countAttempts]
  | succ n ih =>
    intro i
    simp only [blockhashRetryGo]
    cases h : o i with
    | ok v => simp [countAttempts, List.countP_cons]
    | error e =>
      by_cases hr : n = 0
      · simp [hr, countAttempts, List.countP_cons]
      · have hx := ih (i + 1)
        simp [hr, countAttempts, List.countP_cons] at hx ⊢
        omega

/-- A successful blockhash retry returns the fetched blockhash with the
fetched height plus the fixed margin 150. -/
theorem blockhashRetryGo_ok_margin (d : ℕ) (o : ℕ → Except String (String × ℕ)) :
    ∀ fuel i v, (blockhashRetryGo d o i fuel).2 = .ok v →
      ∃ j h, o j = .ok (v.1, h) ∧ v.2 = h + 150 := by
  intro fuel
  induction fuel with
  | zero => intro i v h; simp [blockhashRetryGo] at h
  | succ n ih =>
    intro i v h
    simp only [blockhashRetryGo] at h
    cases ho : o i with
    | ok bv =>
      rw [ho] at h
      simp at h
      exact ⟨i, bv.2, by rw [ho, ← h], by rw [← h]⟩
    | error e =>
      rw [ho] at h
      by_cases hr : n = 0
      · simp [hr] at h
      · simp only [hr, if_false] at h
        exact ih (i + 1) v h

/-- Every sleep event a blockhash retry loop emits has the fixed loop
delay. -/
theorem blockhashRetryGo_sleep_val (d : ℕ) (o : ℕ → Except String (String × ℕ)) :
    ∀ fuel i ms, RetryEvent.sleep ms ∈ (blockhashRetryGo d o i fuel).1 → ms = d := by
  intro fuel
  induction fuel with
  | zero => intro i ms h; simp [blockhashRetryGo] at h
  | succ n ih =>
    intro i ms h
    simp only [blockhashRetryGo] at h
    cases ho : o i with
    | ok v =>
      rw [ho] at h
      simp at h
    | error e =>
      rw [ho] at h
      by_cases hr : n = 0
      · simp [hr] at h
      · simp only [hr, if_false, List.mem_cons] at h
        rcases h with h | h | h
        · exact absurd h (by simp)
        · exact RetryEvent.sleep.inj h
        · exact ih (i + 1) ms h

/-- When the first three fetches fail, the three-attempt blockhash loop
propagates the error of the third fetch. -/
theorem blockhashRetryGo_three_errors (d : ℕ) (o : ℕ → Except String (String × ℕ))
    (e0 e1 e2 : String) (h0 : o 0 = .error e0) (h1 : o 1 = .error e1)
    (h2 : o 2 = .error e2) : (blockhashRetryGo d o 0 3).2 = .error e2 := by
  simp [blockhashRetryGo, h0, h1, h2]

/-- Every event of a connection loop is an attempt or a sleep of the
loop delay. -/
theorem connectGo_mem_shape (d : ℕ) (ok : ℕ → Bool) :
    ∀ fuel i e, e ∈ (connectGo d ok i fuel).1 →
      (∃ j, e = RetryEvent.attempt j) ∨ e = RetryEvent.sleep d := by
  intro fuel
  induction fuel with
  | zero => intro i e h; simp [connectGo] at h
  | succ n ih =>
    intro i e h
    simp only [connectGo] at h
    by_cases hi : ok i
    · simp [hi] at h
      exact Or.inl ⟨i, h⟩
    · simp only [hi, Bool.false_eq_true, if_false, List.mem_cons] at h
      rcases h with h | h | h
      · exact Or.inl ⟨i, h⟩
      · exact Or.inr h
      · exact ih (i + 1) e h

/-- Every event of a balance wait is a balance poll or a one second
sleep. -/
theorem waitForBalanceGo_mem_shape (bs : ℕ → ℕ) (expected : Frac) :
    ∀ fuel i e, e ∈ (waitForBalanceGo bs expected i fuel).1 →
      (∃ b, e = Ev.getBalance b) ∨ e = Ev.sleep 1000 := by
  intro fuel
  induction fuel with
  | zero => intro i e h; simp [waitForBalanceGo] at h
  | succ n ih =>
    intro i e h
    simp only [waitForBalanceGo] at h
    by_cases hi : fracLe expected (fracOfNat (bs i))
    · simp [hi] at h
      exact Or.inl ⟨bs i, h⟩
    · simp only [hi, Bool.false_eq_true, if_false, List.mem_cons] at h
      rcases h with h | h | h
      · exact Or.inl ⟨bs i, h⟩
      · exact Or.inr h
      · exact ih (i + 1) e h

/-- A balance wait that returns true observed a balance at or above the
expected amount, and that observation is in its trace. -/
theorem waitForBalanceGo_ok_balance (bs : ℕ → ℕ) (expected : Frac) :
    ∀ fuel i, (waitForBalanceGo bs expected i fuel).2 = true →
      ∃ b, Ev.getBalance b ∈ (waitForBalanceGo bs expected i fuel).1 ∧
        fracLe expected (fracOfNat b) = true := by
  intro fuel
  induction fuel with
  | zero => intro i h; simp [waitForBalanceGo] at h
  | succ n ih =>
    intro i h
    simp only [waitForBalanceGo] at h ⊢
    by_cases hi : fracLe expected (fracOfNat (bs i))
    · exact ⟨bs i, by simp [hi], hi⟩
    · simp only [hi, Bool.false_eq_true, if_false] at h ⊢
      obtain ⟨b, hb, hle⟩ := ih (i + 1) h
      exact ⟨b, by simp [hb], hle⟩

/-- Events rendered from a connection loop are never SDK calls. -/
theorem map_connectEv_no_sdk (t : List RetryEvent) :
    ∀ e ∈ t.map connectEv,
      (∀ c m a, e ≠ Ev.sdkCreateAndBuy c m a) ∧ (∀ b m a sl, e ≠ Ev.sdkBuy b m a sl) := by
  intro e he
  rw [List.mem_map] at he
  obtain ⟨x, _, rfl⟩ := he
  cases x <;> simp [connectEv]

/-- Events rendered from a createAndBuy retry trace are the
createAndBuy call with its fixed arguments, or sleeps. -/
theorem map_createAttemptEv_shape (c m : String) (amt : ℤ) (t : List RetryEvent) :
    ∀ e ∈ t.map (createAttemptEv c m amt),
      e = Ev.sdkCreateAndBuy c m amt ∨ ∃ ms, e = Ev.sleep ms := by
  intro e he
  rw [List.mem_map] at he
  obtain ⟨x, _, rfl⟩ := he
  cases x <;> simp [createAttemptEv]

/-- Events rendered from a buy retry trace are the buy call with its
fixed arguments, or sleeps. -/
theorem map_buyAttemptEv_shape (b m : String) (amt sl : ℤ) (t : List RetryEvent) :
    ∀ e ∈ t.map (buyAttemptEv b m amt sl),
      e = Ev.sdkBuy b m amt sl ∨ ∃ ms, e = Ev.sleep ms := by
  intro e he
  rw [List.mem_map] at he
  obtain ⟨x, _, rfl⟩ := he
  cases x <;> simp [buyAttemptEv]

/-- Events rendered from the form connection loop are connection
attempts or sleeps. -/
theorem map_formConnectEv_shape (t : List RetryEvent) :
    ∀ e ∈ t.map formConnectEv, e = FEv.connect ∨ ∃ ms, e = FEv.sleep ms := by
  intro e he
  rw [List.mem_map] at he
  obtain ⟨x, _, rfl⟩ := he
  cases x <;> simp [formConnectEv]

/-- C1: in the token-mint step of the create-sol handler, the combined
create-and-buy SDK operation is attempted at most MAX_RETRIES (3) times;
every delay the loop takes is the fixed RETRY_DELAY of 2000 ms; no delay
is taken when no attempt throws; and when all three attempts throw the
error of the final attempt propagates to the caller.  The buy-back step
of the handler runs the identical loop (sdkRetryLoop is applied to both
createAttempts and buyAttempts in solAfterBalance and solAfterMint), so
the statement over an arbitrary attempt oracle covers both steps. -/
theorem C1_mint_retry_policy (oracle : ℕ → SdkAttempt) :
    countAttempts (sdkRetryLoop oracle).1 ≤ MAX_RETRIES ∧
    (∀ ms, RetryEvent.sleep ms ∈ (sdkRetryLoop oracle).1 → ms = RETRY_DELAY) ∧
    ((∀ j, isThrow (oracle j) = false) → countSleeps (sdkRetryLoop oracle).1 = 0) ∧
    (∀ e0 e1 e2, oracle 0 = .throws e0 → oracle 1 = .throws e1 → oracle 2 = .throws e2 →
      (sdkRetryLoop oracle).2 = .error e2) := by
  refine ⟨sdkRetryGo_attempts_le oracle MAX_RETRIES 0,
          fun ms h => sdkRetryGo_sleep_val oracle MAX_RETRIES 0 ms h,
          fun hall => sdkRetryGo_no_throw_no_sleep oracle hall MAX_RETRIES 0,
          fun e0 e1 e2 h0 h1 h2 => ?_⟩
  simp [sdkRetryLoop, MAX_RETRIES, sdkRetryGo, h0, h1, h2]

/-- C1 witness: at the oracle that throws on every attempt, the loop
surfaces the last error and makes at most three attempts. -/
theorem C1_mint_retry_policy_witness :
    (sdkRetryLoop (fun _ => SdkAttempt.throws "boom")).2 = .error "boom" ∧
    countAttempts (sdkRetryLoop (fun _ => SdkAttempt.throws "boom")).1 ≤ MAX_RETRIES :=
  ⟨(C1_mint_retry_policy (fun _ => SdkAttempt.throws "boom")).2.2.2 "boom" "boom" "boom"
      rfl rfl rfl,
   (C1_mint_retry_policy (fun _ => SdkAttempt.throws "boom")).1⟩

/-- C6 amended: the two retried blockhash fetch sites, the
getBlockhashWithRetry helper of the create-sol route and the funding
blockhash loop of the client form, each attempt the fetch at most 3
times with their fixed delay (2000 ms and 3000 ms respectively) between
failed attempts; a success carries lastValidBlockHeight equal to the
fetched height plus the fixed margin 150; and when all three attempts
fail the error of the third attempt propagates.  (The unretried,
margin-free fetches of the memecoin route and of the form sweep block
are outside this statement; see the counterexample.) -/
theorem C6_blockhash_retry_amended (o f : ℕ → Except String (String × ℕ)) :
    countAttempts (getBlockhashWithRetry o).1 ≤ 3 ∧
    (∀ v, (getBlockhashWithRetry o).2 = .ok v → ∃ j h, o j = .ok (v.1, h) ∧ v.2 = h + 150) ∧
    (∀ ms, RetryEvent.sleep ms ∈ (getBlockhashWithRetry o).1 → ms = RETRY_DELAY) ∧
    (∀ e0 e1 e2, o 0 = .error e0 → o 1 = .error e1 → o 2 = .error e2 →
      (getBlockhashWithRetry o).2 = .error e2) ∧
    countAttempts (formFundingBlockhash f).1 ≤ 3 ∧
    (∀ v, (formFundingBlockhash f).2 = .ok v → ∃ j h, f j = .ok (v.1, h) ∧ v.2 = h + 150) ∧
    (∀ ms, RetryEvent.sleep ms ∈ (formFundingBlockhash f).1 → ms = FORM_RETRY_DELAY) ∧
    (∀ e0 e1 e2, f 0 = .error e0 → f 1 = .error e1 → f 2 = .error e2 →
      (formFundingBlockhash f).2 = .error e2) := by
  refine ⟨blockhashRetryGo_attempts_le RETRY_DELAY o MAX_RETRIES 0,
          fun v h => blockhashRetryGo_ok_margin RETRY_DELAY o MAX_RETRIES 0 v h,
          fun ms h => blockhashRetryGo_sleep_val RETRY_DELAY o MAX_RETRIES 0 ms h,
          fun e0 e1 e2 h0 h1 h2 => blockhashRetryGo_three_errors RETRY_DELAY o e0 e1 e2 h0 h1 h2,
          blockhashRetryGo_attempts_le FORM_RETRY_DELAY f MAX_RETRIES 0,
          fun v h => blockhashRetryGo_ok_margin FORM_RETRY_DELAY f MAX_RETRIES 0 v h,
          fun ms h => blockhashRetryGo_sleep_val FORM_RETRY_DELAY f MAX_RETRIES 0 ms h,
          fun e0 e1 e2 h0 h1 h2 => blockhashRetryGo_three_errors FORM_RETRY_DELAY f e0 e1 e2 h0 h1 h2⟩

/-- C6 witness: concrete runs of both retried fetch sites, exercising
the all-fail propagation on one and the margin 150 on the other. -/
theorem C6_blockhash_retry_witness :
    (getBlockhashWithRetry (fun _ => .error "rpc down")).2 = .error "rpc down" ∧
    (∃ j h, (fun i => if i = 0 then Except.error "x" else Except.ok ("bh", 7)) j
        = Except.ok ("bh", h) ∧ (157 : ℕ) = h + 150) := by
  constructor
  · exact (C6_blockhash_retry_amended (fun _ => .error "rpc down")
      (fun _ => .error "rpc down")).2.2.2.1 "rpc down" "rpc down" "rpc down" rfl rfl rfl
  · exact (C6_blockhash_retry_amended (fun _ => .error "x")
      (fun i => if i = 0 then Except.error "x" else Except.ok ("bh", 7))).2.2.2.2.2.1
      ("bh", 157) rfl

/-- C6 counterexample: the memecoin route funding transfer also fetches
a blockhash while building a transaction, once with no retry, and the
submitted transaction carries the raw fetched lastValidBlockHeight with
no margin of 150: at fetched height 1000 the transaction holds 1000,
not 1150.  The claim quantified over every blockhash fetch in the
transaction-building path is therefore false. -/
theorem C6_memecoin_blockhash_counterexample :
    (memecoinPOST "k" (some "sk") (fun s => s ++ "P") (some "Bearer k")
        ⟨true, .ok "W", 0, .ok ("bh", 1000), .ok "sig", .ok (), .ok "tid", .ok true⟩).tx =
      some ⟨"skP", "W", BASE_AMOUNT_MEME, "bh", 1000, "skP"⟩ ∧
    (1000 : ℕ) ≠ 1000 + 150 := by
  constructor
  · rfl
  · decide

/-- C4: a tokens POST whose parsed body lacks targetWallet (with the
database client resolved and the body parsed, so that validation is
reached) is answered with HTTP 400 and the exact body success false,
error Missing target wallet data, and no document is written to
storage. -/
theorem C4_tokens_missing_target_wallet (body : TokensBody) (now : ℕ)
    (insertOk : Bool) (insertedId : String) (h : body.targetWallet = none) :
    (tokensPOST true true body now insertOk insertedId).1 = [] ∧
    (tokensPOST true true body now insertOk insertedId).2 =
      ⟨400, false, some "Missing target wallet data", none⟩ := by
  simp [tokensPOST, jsFalsyStr, h]

/-- C4 witness: the all-absent body is rejected with 400 and nothing is
written. -/
theorem C4_tokens_missing_target_wallet_witness :
    (tokensPOST true true ⟨none, none, none, none, none, none, none, none, none, none, none⟩
        7 true "id").1 = [] ∧
    (tokensPOST true true ⟨none, none, none, none, none, none, none, none, none, none, none⟩
        7 true "id").2 = ⟨400, false, some "Missing target wallet data", none⟩ :=
  C4_tokens_missing_target_wallet
    ⟨none, none, none, none, none, none, none, none, none, none, none⟩ 7 true "id" rfl

/-- C5: every successful generate-wallet POST answers success true with
data id, publicKey, mintPublicKey, requiredAmount where requiredAmount
is exactly 3.125, exactly one keys document is written, and looking that
document up by the returned id yields a record carrying the same
publicKey and mintPublicKey as the response. -/
theorem C5_generate_wallet_response (dbOk : Bool) (newSecret : List ℕ) (newPub : String)
    (mintSecret : List ℕ) (mintPub : String) (walletId : String) (now : ℕ)
    (insertOk : Bool) (prior : List KeysDoc)
    (h : (generateWalletPOST dbOk newSecret newPub mintSecret mintPub walletId now insertOk).2.success = true) :
    ∃ doc,
      (generateWalletPOST dbOk newSecret newPub mintSecret mintPub walletId now insertOk).1 = [doc] ∧
      (generateWalletPOST dbOk newSecret newPub mintSecret mintPub walletId now insertOk).2.data =
        some ⟨walletId, newPub, mintPub, requiredAmountValue⟩ ∧
      fracEq requiredAmountValue ⟨3125, 1000⟩ = true ∧
      lookupKeys ((generateWalletPOST dbOk newSecret newPub mintSecret mintPub walletId now insertOk).1 ++ prior) walletId = some doc ∧
      doc.walletId = walletId ∧ doc.publicKey = newPub ∧ doc.mintPublicKey = mintPub := by
  cases dbOk with
  | false => simp [generateWalletPOST] at h
  | true =>
    cases insertOk with
    | false => simp [generateWalletPOST] at h
    | true =>
      refine ⟨⟨walletId, newSecret, mintSecret, newPub, mintPub, now⟩, ?_, ?_, requiredAmountValue_eq, ?_, rfl, rfl, rfl⟩
      · rfl
      · rfl
      · simp [generateWalletPOST, lookupKeys, List.find?]

/-- C5 witness: a successful run at concrete inputs. -/
theorem C5_generate_wallet_response_witness :
    ∃ doc,
      (generateWalletPOST true [1] "PUB" [2] "MINT" "wid" 3 true).1 = [doc] ∧
      (generateWalletPOST true [1] "PUB" [2] "MINT" "wid" 3 true).2.data =
        some ⟨"wid", "PUB", "MINT", requiredAmountValue⟩ ∧
      fracEq requiredAmountValue ⟨3125, 1000⟩ = true ∧
      lookupKeys ((generateWalletPOST true [1] "PUB" [2] "MINT" "wid" 3 true).1 ++ []) "wid" = some doc ∧
      doc.walletId = "wid" ∧ doc.publicKey = "PUB" ∧ doc.mintPublicKey = "MINT" :=
  C5_generate_wallet_response true [1] "PUB" [2] "MINT" "wid" 3 true [] rfl

/-- C9: a request to the authenticated memecoin route whose
Authorization header is absent, or differs from Bearer followed by the
configured API key, is answered 401 Unauthorized and the handler
performs no external action at all: no wallet generation, no transfer
build or submission, no persistence (the event trace is empty). -/
theorem C9_auth_rejects_without_side_effects (apiKey : String) (agentWallet : Option String)
    (pubOfB58 : String → String) (authHeader : Option String) (w : MemeWorld)
    (h : authHeader = none ∨ ∀ a, authHeader = some a → a ≠ "Bearer " ++ apiKey) :
    (memecoinPOST apiKey agentWallet pubOfB58 authHeader w).status = 401 ∧
    (memecoinPOST apiKey agentWallet pubOfB58 authHeader w).errorBody = some "Unauthorized" ∧
    (memecoinPOST apiKey agentWallet pubOfB58 authHeader w).events = [] := by
  cases authHeader with
  | none => exact ⟨rfl, rfl, rfl⟩
  | some a =>
    rcases h with h | h
    · exact absurd h (by simp)
    · have hne : a ≠ "Bearer " ++ apiKey := h a rfl
      simp [memecoinPOST, hne]

/-- C9 witness: a concrete mismatched bearer token is rejected with 401
and an empty trace. -/
theorem C9_auth_rejects_witness :
    (memecoinPOST "key" (some "sk") (fun s => s) (some "Bearer wrong")
        ⟨true, .ok "W", 0, .ok ("bh", 5), .ok "sig", .ok (), .ok "t", .ok true⟩).status = 401 ∧
    (memecoinPOST "key" (some "sk") (fun s => s) (some "Bearer wrong")
        ⟨true, .ok "W", 0, .ok ("bh", 5), .ok "sig", .ok (), .ok "t", .ok true⟩).errorBody = some "Unauthorized" ∧
    (memecoinPOST "key" (some "sk") (fun s => s) (some "Bearer wrong")
        ⟨true, .ok "W", 0, .ok ("bh", 5), .ok "sig", .ok (), .ok "t", .ok true⟩).events = [] :=
  C9_auth_rejects_without_side_effects "key" (some "sk") (fun s => s) (some "Bearer wrong")
    ⟨true, .ok "W", 0, .ok ("bh", 5), .ok "sig", .ok (), .ok "t", .ok true⟩
    (Or.inr (fun a ha => by
      injection ha with ha
      subst ha
      decide))

/-- C2 counterexample: the memecoin route performs a funding transfer
with no balance precondition.  In a world where the funding account
balance is 0, strictly below the positive required amount, the handler
still submits the transfer (a send event occurs) and the run succeeds
with status 200; no insufficient-funds failure happens.  The claim
quantified over every funding transfer is therefore false. -/
theorem C2_memecoin_no_balance_check_counterexample :
    fracLt (fracOfNat 0) BASE_AMOUNT_MEME = true ∧
    MEv.send ∈ (memecoinPOST "k" (some "sk") (fun s => s) (some "Bearer k")
        ⟨true, .ok "W", 0, .ok ("bh", 5), .ok "sig", .ok (), .ok "t", .ok true⟩).events ∧
    (memecoinPOST "k" (some "sk") (fun s => s) (some "Bearer k")
        ⟨true, .ok "W", 0, .ok ("bh", 5), .ok "sig", .ok (), .ok "t", .ok true⟩).status = 200 := by
  refine ⟨by decide, ?_, rfl⟩
  show MEv.send ∈ [MEv.generateWallet, MEv.buildTransfer "sk" "W" BASE_AMOUNT_MEME,
    MEv.getBlockhash, MEv.send, MEv.confirmTx, MEv.storeTokens, MEv.createSolFetch]
  simp

/-- C2 amended: the client form funding path does check the precondition:
whenever the connected funding wallet balance is strictly below the
required amount, the submission fails with the insufficient-balance
error after only the connection and the balance read, and no transaction
is built, signed or submitted and no blockhash is fetched.  The
authenticated memecoin route, by contrast, performs no balance check at
all: its behavior is identical for every funding account balance. -/
theorem C2_form_insufficient_funds_guard (pk : String) (tokenName tokenSymbol : String)
    (signAvail : Bool) (basePrivateKey : Option String) (w : FormWorld)
    (htn : tokenName ≠ "") (hts : tokenSymbol ≠ "")
    (hc : (connectGo FORM_RETRY_DELAY w.connectOk 0 MAX_RETRIES).2 = true)
    (hb : fracLt (fracOfNat w.fundingBalance) BASE_AMOUNT_FORM = true) :
    ((handleSubmitSOL (some pk) true tokenName tokenSymbol signAvail basePrivateKey w).2 =
      .errorSet "Insufficient balance in main wallet" ∧
     (∀ a, FEv.buildTransfer a ∉ (handleSubmitSOL (some pk) true tokenName tokenSymbol signAvail basePrivateKey w).1) ∧
     FEv.send ∉ (handleSubmitSOL (some pk) true tokenName tokenSymbol signAvail basePrivateKey w).1 ∧
     FEv.signTx ∉ (handleSubmitSOL (some pk) true tokenName tokenSymbol signAvail basePrivateKey w).1 ∧
     FEv.getBlockhash ∉ (handleSubmitSOL (some pk) true tokenName tokenSymbol signAvail basePrivateKey w).1) ∧
    (∀ (apiKey : String) (aw : Option String) (pOf : String → String)
       (auth : Option String) (mw : MemeWorld) (b : ℕ),
      memecoinPOST apiKey aw pOf auth
        ⟨mw.bodyOk, mw.genWallet, b, mw.blockhashRes, mw.sendRes, mw.confirmRes, mw.storeRes, mw.createSolRes⟩ =
      memecoinPOST apiKey aw pOf auth mw) := by
  have hguard : ¬(tokenName = "" ∨ tokenSymbol = "") := by
    rintro (h | h)
    · exact htn h
    · exact hts h
  have hrun : handleSubmitSOL (some pk) true tokenName tokenSymbol signAvail basePrivateKey w =
      (((connectGo FORM_RETRY_DELAY w.connectOk 0 MAX_RETRIES).1.map formConnectEv) ++
        [FEv.getBalance w.fundingBalance],
       FormRes.errorSet "Insufficient balance in main wallet") := by
    simp [handleSubmitSOL, hguard, hc, hb]
  refine ⟨⟨by rw [hrun], ?_, ?_, ?_, ?_⟩, ?_⟩
  · intro a hmem
    rw [hrun] at hmem
    simp only [List.mem_append, List.mem_singleton] at hmem
    rcases hmem with hmem | hmem
    · rcases map_formConnectEv_shape _ _ hmem with h | ⟨ms, h⟩ <;> simp at h
    · simp at hmem
  · intro hmem
    rw [hrun] at hmem
    simp only [List.mem_append, List.mem_singleton] at hmem
    rcases hmem with hmem | hmem
    · rcases map_formConnectEv_shape _ _ hmem with h | ⟨ms, h⟩ <;> simp at h
    · simp at hmem
  · intro hmem
    rw [hrun] at hmem
    simp only [List.mem_append, List.mem_singleton] at hmem
    rcases hmem with hmem | hmem
    · rcases map_formConnectEv_shape _ _ hmem with h | ⟨ms, h⟩ <;> simp at h
    · simp at hmem
  · intro hmem
    rw [hrun] at hmem
    simp only [List.mem_append, List.mem_singleton] at hmem
    rcases hmem with hmem | hmem
    · rcases map_formConnectEv_shape _ _ hmem with h | ⟨ms, h⟩ <;> simp at h
    · simp at hmem
  · intro apiKey aw pOf auth mw b
    cases mw
    rfl

/-- C2 witness: a concrete form run with balance 0 fails with the
insufficient-balance error and never submits. -/
theorem C2_form_insufficient_funds_guard_witness :
    (handleSubmitSOL (some "PK") true "N" "S" true none
        ⟨fun _ => true, 0, fun _ => .ok ("bh", 1), .ok "s", .ok (), 0, .ok "url",
         0, .ok ("b2", 2), .ok "s2", .ok (), 0, .ok true⟩).2 =
      .errorSet "Insufficient balance in main wallet" ∧
    FEv.send ∉ (handleSubmitSOL (some "PK") true "N" "S" true none
        ⟨fun _ => true, 0, fun _ => .ok ("bh", 1), .ok "s", .ok (), 0, .ok "url",
         0, .ok ("b2", 2), .ok "s2", .ok (), 0, .ok true⟩).1 :=
  ⟨((C2_form_insufficient_funds_guard "PK" "N" "S" true none
      ⟨fun _ => true, 0, fun _ => .ok ("bh", 1), .ok "s", .ok (), 0, .ok "url",
       0, .ok ("b2", 2), .ok "s2", .ok (), 0, .ok true⟩
      (by decide) (by decide) rfl (by decide)).1).1,
   ((C2_form_insufficient_funds_guard "PK" "N" "S" true none
      ⟨fun _ => true, 0, fun _ => .ok ("bh", 1), .ok "s", .ok (), 0, .ok "url",
       0, .ok ("b2", 2), .ok "s2", .ok (), 0, .ok true⟩
      (by decide) (by decide) rfl (by decide)).1).2.2.1⟩

/-- C3 counterexample: after wallet generation the client form sends the
spend and mint secret key bytes to the server inside the create-sol
request body (walletData), so a client-server message after the
generation response does carry the secret bytes; the claim that no such
message carries them is false.  Shown at a concrete wallet whose secret
arrays are [1,2,3] and [4,5,6]. -/
theorem C3_secret_bytes_in_request_counterexample :
    secretArrays (createSolRequestPayload ⟨"Token Wallet", "PUB", ⟨0, 1⟩, [1, 2, 3], [4, 5, 6], none⟩
        "N" "S" "D" none none none) = [[1, 2, 3], [4, 5, 6]] ∧
    ([[1, 2, 3], [4, 5, 6]] : List (List ℕ)) ≠ [] := by
  constructor
  · rfl
  · decide

/-- C3 amended: secret key custody is not exclusively server-side.  The
server responses carry no secret bytes at all: the generate-wallet
response (which returns only public keys, even stronger than claimed)
and the tokens response contain no byte arrays.  But in the form
variant the keypairs are generated client-side and their raw secret
bytes travel client to server: the create-sol request walletData and
the tokens request wallets field each carry exactly the spend and mint
secret key arrays. -/
theorem secretArraysOfField_optFieldStr (v : Option String) :
    secretArraysOfField (optFieldStr v) = [] := by
  cases v <;> rfl

theorem secretArraysOfField_s (v : String) : secretArraysOfField (.s v) = [] := rfl

theorem secretArraysOfField_n (v : Frac) : secretArraysOfField (.n v) = [] := rfl

theorem secretArraysOfField_b (v : Bool) : secretArraysOfField (.b v) = [] := rfl

theorem secretArraysOfField_nullv : secretArraysOfField .nullv = [] := rfl

theorem secretArraysOfField_bytes (v : List ℕ) : secretArraysOfField (.bytes v) = [v] := rfl

/-- C3 amended helper: an optional string form entry never contributes a
byte array. -/
theorem secretArrays_optStrEntry (name : String) (v : Option String) :
    (optStrEntry name v).foldr (fun e acc => secretArraysOfEntry e.2 ++ acc) [] = [] := by
  cases v <;> rfl

theorem C3_secret_custody_amended (walletId pub mintPub : String) (d : TokenDoc)
    (tokenId : String) (w : WalletInfoC) (tn ts td : String)
    (tw wl tl : Option String) (tn2 ts2 td2 : String) (im : Option String)
    (tw2 wl2 tl2 : String) (fw : String) :
    secretArrays (generateWalletResponsePayload walletId pub mintPub) = [] ∧
    secretArrays (tokensResponsePayload d tokenId) = [] ∧
    secretArrays (createSolRequestPayload w tn ts td tw wl tl) = [w.keypair, w.mint] ∧
    secretArrays (tokensRequestFormPayload tn2 ts2 td2 im tw2 wl2 tl2 w fw) = [w.keypair, w.mint] := by
  refine ⟨rfl, ?_, ?_, ?_⟩
  · simp [tokensResponsePayload, secretArrays, secretArraysOfEntry, secretArraysOfFields,
      secretArraysOfField_optFieldStr, secretArraysOfField_s, secretArraysOfField_b,
      List.foldr_cons, List.foldr_nil]
  · cases tw <;> cases wl <;> cases tl <;>
      simp [createSolRequestPayload, optStrEntry, secretArrays, secretArraysOfEntry,
        secretArraysOfFields, secretArraysOfField_s, secretArraysOfField_b,
        secretArraysOfField_nullv, secretArraysOfField_bytes,
        List.foldr_cons, List.foldr_nil, List.foldr_append]
  · cases hw : w.tokenUrl <;>
      simp [tokensRequestFormPayload, walletInfoFields, hw, secretArrays,
        secretArraysOfEntry, secretArraysOfFields, secretArraysOfField_s,
        secretArraysOfField_b, secretArraysOfField_n, secretArraysOfField_bytes,
        secretArraysOfField_optFieldStr, List.foldr_cons, List.foldr_nil, List.foldr_append]

/-- The price probe polls at most fuel times. -/
theorem priceProbeGo_polls_le (o : ℕ → ProbeAttempt) :
    ∀ fuel i, countPolls (priceProbeGo o i fuel).1 ≤ fuel := by
  intro fuel
  induction fuel with
  | zero => intro i; simp [priceProbeGo, countPolls]
  | succ n ih =>
    intro i
    simp only [priceProbeGo]
    cases ho : o i with
    | price p =>
      by_cases hp : fracLt ⟨0, 1⟩ p
      · simp [hp, countPolls, List.countP_cons]
      · have hx := ih (i + 1)
        simp [hp, countPolls, List.countP_cons] at hx ⊢
        omega
    | noPairs =>
      have hx := ih (i + 1)
      simp [countPolls, List.countP_cons] at hx ⊢
      omega
    | requestFailed =>
      have hx := ih (i + 1)
      simp [countPolls, List.countP_cons] at hx ⊢
      omega

/-- A price the probe returns is the first usable one: some earlier-th
attempt yields it, it is strictly positive, and every attempt before it
was unusable. -/
theorem priceProbeGo_some_first (o : ℕ → ProbeAttempt) :
    ∀ fuel i p, (priceProbeGo o i fuel).2 = some p →
      ∃ k, k < fuel ∧ usablePrice (o (i + k)) = true ∧ probeValue (o (i + k)) = some p ∧
        ∀ j, j < k → usablePrice (o (i + j)) = false := by
  intro fuel
  induction fuel with
  | zero => intro i p h; simp [priceProbeGo] at h
  | succ n ih =>
    intro i p h
    simp only [priceProbeGo] at h
    cases ho : o i with
    | price q =>
      rw [ho] at h
      by_cases hq : fracLt ⟨0, 1⟩ q
      · simp only [hq, if_true] at h
        simp only [Option.some.injEq] at h
        refine ⟨0, by omega, ?_, ?_, by omega⟩
        · rw [Nat.add_zero, ho]; simpa [usablePrice] using hq
        · rw [Nat.add_zero, ho]; simp [probeValue, h]
      · simp only [hq, Bool.false_eq_true, if_false] at h
        obtain ⟨k, hk, hu, hv, hj⟩ := ih (i + 1) p h
        refine ⟨k + 1, by omega, ?_, ?_, ?_⟩
        · have hidx : i + (k + 1) = i + 1 + k := by omega
          rw [hidx]; exact hu
        · have hidx : i + (k + 1) = i + 1 + k := by omega
          rw [hidx]; exact hv
        · intro j hjk
          cases j with
          | zero => rw [Nat.add_zero, ho]; simpa [usablePrice] using hq
          | succ j2 =>
            have hidx : i + (j2 + 1) = i + 1 + j2 := by omega
            rw [hidx]; exact hj j2 (by omega)
    | noPairs =>
      rw [ho] at h
      obtain ⟨k, hk, hu, hv, hj⟩ := ih (i + 1) p h
      refine ⟨k + 1, by omega, ?_, ?_, ?_⟩
      · have hidx : i + (k + 1) = i + 1 + k := by omega
        rw [hidx]; exact hu
      · have hidx : i + (k + 1) = i + 1 + k := by omega
        rw [hidx]; exact hv
      · intro j hjk
        cases j with
        | zero => rw [Nat.add_zero, ho]; simp [usablePrice]
        | succ j2 =>
          have hidx : i + (j2 + 1) = i + 1 + j2 := by omega
          rw [hidx]; exact hj j2 (by omega)
    | requestFailed =>
      rw [ho] at h
      obtain ⟨k, hk, hu, hv, hj⟩ := ih (i + 1) p h
      refine ⟨k + 1, by omega, ?_, ?_, ?_⟩
      · have hidx : i + (k + 1) = i + 1 + k := by omega
        rw [hidx]; exact hu
      · have hidx : i + (k + 1) = i + 1 + k := by omega
        rw [hidx]; exact hv
      · intro j hjk
        cases j with
        | zero => rw [Nat.add_zero, ho]; simp [usablePrice]
        | succ j2 =>
          have hidx : i + (j2 + 1) = i + 1 + j2 := by omega
          rw [hidx]; exact hj j2 (by omega)

/-- When no attempt in the budget yields a usable price the probe
returns none. -/
theorem priceProbeGo_none_of_unusable (o : ℕ → ProbeAttempt) :
    ∀ fuel i, (∀ k, k < fuel → usablePrice (o (i + k)) = false) →
      (priceProbeGo o i fuel).2 = none := by
  intro fuel
  induction fuel with
  | zero => intro i _; simp [priceProbeGo]
  | succ n ih =>
    intro i hall
    simp only [priceProbeGo]
    have h0 := hall 0 (by omega)
    rw [Nat.add_zero] at h0
    have hrec : ∀ k, k < n → usablePrice (o (i + 1 + k)) = false := by
      intro k hk
      have hidx : i + 1 + k = i + (k + 1) := by omega
      rw [hidx]; exact hall (k + 1) (by omega)
    cases ho : o i with
    | price q =>
      rw [ho] at h0
      have hq : fracLt ⟨0, 1⟩ q = false := by simpa [usablePrice] using h0
      simp only [hq, Bool.false_eq_true, if_false]
      exact ih (i + 1) hrec
    | noPairs => exact ih (i + 1) hrec
    | requestFailed => exact ih (i + 1) hrec

/-- C8: the price probe polls the market-data endpoint at most 5 times;
a returned price is the first strictly positive one observed and every
attempt before it was unusable; when no attempt yields a positive price
the probe returns none (its return type has no error channel, so it
never throws); and the workflow finalizes the token record with the
token url regardless of the probe outcome, recording exactly the probe
result as the optional initial price. -/
theorem C8_price_probe (oracle : ℕ → ProbeAttempt) (url : String) :
    countPolls (priceProbe oracle).1 ≤ 5 ∧
    (∀ p, (priceProbe oracle).2 = some p →
      ∃ k, k < 5 ∧ usablePrice (oracle k) = true ∧ probeValue (oracle k) = some p ∧
        ∀ j, j < k → usablePrice (oracle j) = false) ∧
    ((∀ k, k < 5 → usablePrice (oracle k) = false) → (priceProbe oracle).2 = none) ∧
    (mintThenPriceProbe oracle url).tokenUrl = some url ∧
    (mintThenPriceProbe oracle url).initialPriceInSol = (priceProbe oracle).2 := by
  refine ⟨priceProbeGo_polls_le oracle 5 0, ?_, ?_, rfl, rfl⟩
  · intro p h
    obtain ⟨k, hk, hu, hv, hj⟩ := priceProbeGo_some_first oracle 5 0 p h
    exact ⟨k, hk, by simpa using hu, by simpa using hv,
      fun j hjk => by simpa using hj j hjk⟩
  · intro hall
    exact priceProbeGo_none_of_unusable oracle 5 0 (fun k hk => by simpa using hall k hk)

/-- C8 witness: five empty results produce none, and the record is
still finalized with its token url. -/
theorem C8_price_probe_witness :
    (priceProbe (fun _ => ProbeAttempt.noPairs)).2 = none ∧
    (mintThenPriceProbe (fun _ => ProbeAttempt.noPairs) "https://pump.fun/M").tokenUrl =
      some "https://pump.fun/M" :=
  ⟨(C8_price_probe (fun _ => ProbeAttempt.noPairs) "https://pump.fun/M").2.2.1
      (fun _ _ => rfl),
   (C8_price_probe (fun _ => ProbeAttempt.noPairs) "https://pump.fun/M").2.2.2.1⟩

/-- C7: the mint step follows funding.  In the create-sol handler, any
createAndBuy SDK call in the trace happens strictly after a balance
observation at or above the required funded amount (the trace splits as
a prefix holding such an observation and no createAndBuy, followed by
the rest); in the memecoin route, the create-sol fetch that triggers the
mint happens only when the funding confirmation succeeded, strictly
after the confirm event. -/
theorem C7_funding_before_mint (env : SolEnv) (pubOf : List ℕ → String)
    (pubOfB58 : String → String) (w : SolWorld) (apiKey : String)
    (agentWallet : Option String) (pubB : String → String)
    (authHeader : Option String) (mw : MemeWorld) :
    (∀ c m a, Ev.sdkCreateAndBuy c m a ∈ (createSolPOST env pubOf pubOfB58 w).events →
      ∃ t1 t2, (createSolPOST env pubOf pubOfB58 w).events = t1 ++ t2 ∧
        (∃ b, Ev.getBalance b ∈ t1 ∧ fracLe MINIMUM_BALANCE_REQUIRED (fracOfNat b) = true) ∧
        (∀ c2 m2 a2, Ev.sdkCreateAndBuy c2 m2 a2 ∉ t1)) ∧
    (MEv.createSolFetch ∈ (memecoinPOST apiKey agentWallet pubB authHeader mw).events →
      mw.confirmRes = Except.ok () ∧
      ∃ u1 u2, (memecoinPOST apiKey agentWallet pubB authHeader mw).events = u1 ++ u2 ∧
        MEv.confirmTx ∈ u1 ∧ MEv.createSolFetch ∉ u1) := by
  constructor
  · intro c m a hmem
    cases hu : w.uploadResult with
    | error e => simp [createSolPOST, hu] at hmem
    | ok hsh =>
      cases hwd : w.walletData with
      | none => simp [createSolPOST, hu, hwd] at hmem
      | some wd =>
        by_cases hc : (connectGo RETRY_DELAY w.connectOk 0 MAX_RETRIES).2 = true
        · by_cases hb : (waitForBalanceGo w.balances MINIMUM_BALANCE_REQUIRED 0 10).2 = true
          · refine ⟨Ev.upload :: ((connectGo RETRY_DELAY w.connectOk 0 MAX_RETRIES).1.map connectEv
                ++ ((waitForBalanceGo w.balances MINIMUM_BALANCE_REQUIRED 0 10).1
                  ++ [Ev.getBalance w.balanceAfter])),
              (solAfterBalance env pubOf pubOfB58 wd w).1, ?_, ?_, ?_⟩
            · simp [createSolPOST, hu, hwd, hc, hb]
            · obtain ⟨b, hbmem, hble⟩ :=
                waitForBalanceGo_ok_balance w.balances MINIMUM_BALANCE_REQUIRED 10 0 hb
              exact ⟨b, by simp [hbmem], hble⟩
            · intro c2 m2 a2 hmem2
              rcases List.mem_cons.mp hmem2 with h | h
              · simp at h
              · rcases List.mem_append.mp h with h | h
                · exact absurd rfl ((map_connectEv_no_sdk _ _ h).1 c2 m2 a2)
                · rcases List.mem_append.mp h with h | h
                  · rcases waitForBalanceGo_mem_shape w.balances MINIMUM_BALANCE_REQUIRED 10 0 _ h with
                      ⟨b2, h2⟩ | h2 <;> simp at h2
                  · simp at h
          · have hev : (createSolPOST env pubOf pubOfB58 w).events =
                Ev.upload :: ((connectGo RETRY_DELAY w.connectOk 0 MAX_RETRIES).1.map connectEv
                  ++ (waitForBalanceGo w.balances MINIMUM_BALANCE_REQUIRED 0 10).1) := by
              simp [createSolPOST, hu, hwd, hc, hb]
            rw [hev] at hmem
            rcases List.mem_cons.mp hmem with h | h
            · simp at h
            · rcases List.mem_append.mp h with h | h
              · exact absurd rfl ((map_connectEv_no_sdk _ _ h).1 c m a)
              · rcases waitForBalanceGo_mem_shape w.balances MINIMUM_BALANCE_REQUIRED 10 0 _ h with
                  ⟨b2, h2⟩ | h2 <;> simp at h2
        · have hev : (createSolPOST env pubOf pubOfB58 w).events =
              Ev.upload :: (connectGo RETRY_DELAY w.connectOk 0 MAX_RETRIES).1.map connectEv := by
            simp [createSolPOST, hu, hwd, hc]
          rw [hev] at hmem
          rcases List.mem_cons.mp hmem with h | h
          · simp at h
          · exact absurd rfl ((map_connectEv_no_sdk _ _ h).1 c m a)
  · intro hmem
    cases hA : authHeader with
    | none => simp [memecoinPOST, hA] at hmem
    | some atok =>
      by_cases hauth : atok = "Bearer " ++ apiKey
      swap
      · simp [memecoinPOST, hA, hauth] at hmem
      by_cases hbody : mw.bodyOk = false
      · simp [memecoinPOST, hA, hauth, hbody, memeErr] at hmem
      · cases hgen : mw.genWallet with
        | error e => simp [memecoinPOST, hA, hauth, hbody, hgen, memeErr] at hmem
        | ok wpub =>
          cases haw : agentWallet with
          | none => simp [memecoinPOST, hA, hauth, hbody, hgen, haw, memeErr] at hmem
          | some sk =>
            cases hbh : mw.blockhashRes with
            | error e => simp [memecoinPOST, hA, hauth, hbody, hgen, haw, hbh, memeErr] at hmem
            | ok bh =>
              cases hsend : mw.sendRes with
              | error e =>
                simp [memecoinPOST, hA, hauth, hbody, hgen, haw, hbh, hsend, memeErr] at hmem
              | ok sig =>
                cases hconf : mw.confirmRes with
                | error e =>
                  simp [memecoinPOST, hA, hauth, hbody, hgen, haw, hbh, hsend, hconf, memeErr] at hmem
                | ok u =>
                  cases u
                  refine ⟨rfl, ?_⟩
                  cases hst : mw.storeRes with
                  | error e =>
                    simp [memecoinPOST, hA, hauth, hbody, hgen, haw, hbh, hsend, hconf, hst, memeErr] at hmem
                  | ok tid =>
                    refine ⟨[MEv.generateWallet,
                        MEv.buildTransfer (pubB sk) wpub BASE_AMOUNT_MEME, MEv.getBlockhash,
                        MEv.send, MEv.confirmTx, MEv.storeTokens], [MEv.createSolFetch],
                        ?_, by simp, by simp⟩
                    cases hcs : mw.createSolRes with
                    | error e =>
                      simp [memecoinPOST, hA, hauth, hbody, hgen, haw, hbh, hsend, hconf, hst, hcs, memeErr]
                    | ok bb =>
                      cases bb <;>
                        simp [memecoinPOST, hA, hauth, hbody, hgen, haw, hbh, hsend, hconf, hst, hcs, memeErr]

/-- A successful create-sol run passed every gate: the buy-back key was
configured, wallet data was present, both retry loops ended in success,
and the trace is the connect, balance, createAndBuy and buy segments in
order with the evaluated fixed amounts. -/
theorem createSolPOST_success_shape (env : SolEnv) (pubOf : List ℕ → String)
    (pubOfB58 : String → String) (w : SolWorld)
    (h : (createSolPOST env pubOf pubOfB58 w).resp.success = true) :
    ∃ sk wd, env.buyBackPrivateKey = some sk ∧ w.walletData = some wd ∧
      (sdkRetryLoop w.createAttempts).2 = Except.ok true ∧
      (sdkRetryLoop w.buyAttempts).2 = Except.ok true ∧
      (createSolPOST env pubOf pubOfB58 w).events =
        (Ev.upload :: ((connectGo RETRY_DELAY w.connectOk 0 MAX_RETRIES).1.map connectEv
          ++ ((waitForBalanceGo w.balances MINIMUM_BALANCE_REQUIRED 0 10).1
            ++ ([Ev.getBalance w.balanceAfter]
              ++ (sdkRetryLoop w.createAttempts).1.map
                  (createAttemptEv (pubOf wd.keypair) (pubOf wd.mint) 100000)))))
          ++ (sdkRetryLoop w.buyAttempts).1.map
              (buyAttemptEv (pubOfB58 sk) (pubOf wd.mint) 3100000000 100) := by
  cases hu : w.uploadResult with
  | error e => simp [createSolPOST, hu, errSolResp] at h
  | ok hsh =>
    cases hwd : w.walletData with
    | none => simp [createSolPOST, hu, hwd, errSolResp] at h
    | some wd =>
      by_cases hc : (connectGo RETRY_DELAY w.connectOk 0 MAX_RETRIES).2 = true
      swap
      · simp [createSolPOST, hu, hwd, hc, errSolResp] at h
      by_cases hb : (waitForBalanceGo w.balances MINIMUM_BALANCE_REQUIRED 0 10).2 = true
      swap
      · simp [createSolPOST, hu, hwd, hc, hb, errSolResp] at h
      have hres : (createSolPOST env pubOf pubOfB58 w).resp =
          (solAfterBalance env pubOf pubOfB58 wd w).2.1 := by
        simp [createSolPOST, hu, hwd, hc, hb]
      rw [hres] at h
      rcases hcr : (sdkRetryLoop w.createAttempts).2 with e | b
      · have hx : (solAfterBalance env pubOf pubOfB58 wd w).2.1 = errSolResp e := by
          simp [solAfterBalance, createAndBuyLamports_eq, hcr]
        rw [hx] at h
        simp [errSolResp] at h
      · cases b with
        | false =>
          have hx : (solAfterBalance env pubOf pubOfB58 wd w).2.1 =
              errSolResp "Token creation failed after all retries" := by
            simp [solAfterBalance, createAndBuyLamports_eq, hcr]
          rw [hx] at h
          simp [errSolResp] at h
        | true =>
          have hsb : solAfterBalance env pubOf pubOfB58 wd w =
              ((sdkRetryLoop w.createAttempts).1.map
                  (createAttemptEv (pubOf wd.keypair) (pubOf wd.mint) 100000)
                ++ (solAfterMint env pubOfB58 (pubOf wd.mint) w).1,
               (solAfterMint env pubOfB58 (pubOf wd.mint) w).2, true) := by
            simp [solAfterBalance, createAndBuyLamports_eq, hcr]
          rcases hsk : env.buyBackPrivateKey with _ | sk
          · have hx : (solAfterMint env pubOfB58 (pubOf wd.mint) w).2 =
                errSolResp "Buyer private key not found" := by
              simp [solAfterMint, hsk]
            rw [hsb, hx] at h
            simp [errSolResp] at h
          · rcases hbr : (sdkRetryLoop w.buyAttempts).2 with e | bb
            · have hx : (solAfterMint env pubOfB58 (pubOf wd.mint) w).2 = errSolResp e := by
                simp [solAfterMint, hsk, buyBackLamports_eq, hbr]
              rw [hsb, hx] at h
              simp [errSolResp] at h
            · cases bb with
              | false =>
                have hx : (solAfterMint env pubOfB58 (pubOf wd.mint) w).2 =
                    errSolResp "Additional buy transaction failed after all retries" := by
                  simp [solAfterMint, hsk, buyBackLamports_eq, hbr]
                rw [hsb, hx] at h
                simp [errSolResp] at h
              | true =>
                have hsm : solAfterMint env pubOfB58 (pubOf wd.mint) w =
                    ((sdkRetryLoop w.buyAttempts).1.map
                        (buyAttemptEv (pubOfB58 sk) (pubOf wd.mint) 3100000000 100),
                     okSolResp ("https://pump.fun/" ++ pubOf wd.mint)) := by
                  simp only [solAfterMint, hsk, buyBackLamports_eq, hbr]
                  rfl
                refine ⟨sk, wd, rfl, rfl, rfl, rfl, ?_⟩
                simp [createSolPOST, hu, hwd, hc, hb, hsb, hsm]

/-- A create-sol run with the minted flag set reached the createAndBuy
success and answers with whatever the buy-back tail produced; the mint
flag is never cleared afterwards. -/
theorem createSolPOST_minted_shape (env : SolEnv) (pubOf : List ℕ → String)
    (pubOfB58 : String → String) (w : SolWorld)
    (h : (createSolPOST env pubOf pubOfB58 w).minted = true) :
    ∃ wd, w.walletData = some wd ∧ (sdkRetryLoop w.createAttempts).2 = Except.ok true ∧
      (createSolPOST env pubOf pubOfB58 w).resp =
        (solAfterMint env pubOfB58 (pubOf wd.mint) w).2 := by
  cases hu : w.uploadResult with
  | error e => simp [createSolPOST, hu] at h
  | ok hsh =>
    cases hwd : w.walletData with
    | none => simp [createSolPOST, hu, hwd] at h
    | some wd =>
      by_cases hc : (connectGo RETRY_DELAY w.connectOk 0 MAX_RETRIES).2 = true
      swap
      · simp [createSolPOST, hu, hwd, hc] at h
      by_cases hb : (waitForBalanceGo w.balances MINIMUM_BALANCE_REQUIRED 0 10).2 = true
      swap
      · simp [createSolPOST, hu, hwd, hc, hb] at h
      have hm : (createSolPOST env pubOf pubOfB58 w).minted =
          (solAfterBalance env pubOf pubOfB58 wd w).2.2 := by
        simp [createSolPOST, hu, hwd, hc, hb]
      have hres : (createSolPOST env pubOf pubOfB58 w).resp =
          (solAfterBalance env pubOf pubOfB58 wd w).2.1 := by
        simp [createSolPOST, hu, hwd, hc, hb]
      rw [hm] at h
      rcases hcr : (sdkRetryLoop w.createAttempts).2 with e | b
      · have hx : (solAfterBalance env pubOf pubOfB58 wd w).2.2 = false := by
          simp [solAfterBalance, createAndBuyLamports_eq, hcr]
        rw [hx] at h
        exact absurd h (by simp)
      · cases b with
        | false =>
          have hx : (solAfterBalance env pubOf pubOfB58 wd w).2.2 = false := by
            simp [solAfterBalance, createAndBuyLamports_eq, hcr]
          rw [hx] at h
          exact absurd h (by simp)
        | true =>
          have hsb : (solAfterBalance env pubOf pubOfB58 wd w).2.1 =
              (solAfterMint env pubOfB58 (pubOf wd.mint) w).2 := by
            simp [solAfterBalance, createAndBuyLamports_eq, hcr]
          exact ⟨wd, rfl, rfl, by rw [hres, hsb]⟩

/-- C10: every successful create-sol run issued the initial createAndBuy
with exactly 100000 lamports (BigInt of 0.0001 SOL) for the wallet-data
keypairs, and then a mandatory buy-back sdk buy of exactly 3100000000
lamports (3.1 SOL) at 100 basis points slippage from the keypair decoded
from NEXT_PUBLIC_BUY_BACK_PRIVATE_KEY, with every createAndBuy event
before every buy event; when that environment value is absent no run
succeeds, and a run whose mint already succeeded (minted flag) still
fails with the buyer-key error while the mint stays in effect (the flag
is reported true and nothing undoes it). -/
theorem C10_fixed_amounts_and_mandatory_buyback (env : SolEnv) (pubOf : List ℕ → String)
    (pubOfB58 : String → String) (w : SolWorld) :
    ((createSolPOST env pubOf pubOfB58 w).resp.success = true →
      ∃ sk wd, env.buyBackPrivateKey = some sk ∧ w.walletData = some wd ∧
        (∀ c m a, Ev.sdkCreateAndBuy c m a ∈ (createSolPOST env pubOf pubOfB58 w).events →
          c = pubOf wd.keypair ∧ m = pubOf wd.mint ∧ a = 100000) ∧
        (∀ b m a sl, Ev.sdkBuy b m a sl ∈ (createSolPOST env pubOf pubOfB58 w).events →
          b = pubOfB58 sk ∧ m = pubOf wd.mint ∧ a = 3100000000 ∧ sl = 100) ∧
        (∃ t1 t2, (createSolPOST env pubOf pubOfB58 w).events = t1 ++ t2 ∧
          Ev.sdkCreateAndBuy (pubOf wd.keypair) (pubOf wd.mint) 100000 ∈ t1 ∧
          (∀ b m a sl, Ev.sdkBuy b m a sl ∉ t1) ∧
          Ev.sdkBuy (pubOfB58 sk) (pubOf wd.mint) 3100000000 100 ∈ t2)) ∧
    (env.buyBackPrivateKey = none →
      (createSolPOST env pubOf pubOfB58 w).resp.success = false) ∧
    (env.buyBackPrivateKey = none → (createSolPOST env pubOf pubOfB58 w).minted = true →
      (createSolPOST env pubOf pubOfB58 w).resp.error = some "Buyer private key not found" ∧
      (createSolPOST env pubOf pubOfB58 w).resp.status = 500) := by
  refine ⟨?_, ?_, ?_⟩
  · intro h
    obtain ⟨sk, wd, hsk, hwd, hcr, hbr, hev⟩ :=
      createSolPOST_success_shape env pubOf pubOfB58 w h
    refine ⟨sk, wd, hsk, hwd, ?_, ?_, ?_⟩
    · intro c m a hmem
      rw [hev] at hmem
      rcases List.mem_append.mp hmem with h1 | h1
      · rcases List.mem_cons.mp h1 with h2 | h2
        · simp at h2
        · rcases List.mem_append.mp h2 with h3 | h3
          · exact absurd rfl ((map_connectEv_no_sdk _ _ h3).1 c m a)
          · rcases List.mem_append.mp h3 with h4 | h4
            · rcases waitForBalanceGo_mem_shape w.balances MINIMUM_BALANCE_REQUIRED 10 0 _ h4 with
                ⟨b2, hb2⟩ | hb2 <;> simp at hb2
            · rcases List.mem_append.mp h4 with h5 | h5
              · simp at h5
              · rcases map_createAttemptEv_shape _ _ _ _ _ h5 with h6 | ⟨ms, h6⟩
                · exact Ev.sdkCreateAndBuy.inj h6
                · simp at h6
      · rcases map_buyAttemptEv_shape _ _ _ _ _ _ h1 with h2 | ⟨ms, h2⟩ <;> simp at h2
    · intro b m a sl hmem
      rw [hev] at hmem
      rcases List.mem_append.mp hmem with h1 | h1
      · rcases List.mem_cons.mp h1 with h2 | h2
        · simp at h2
        · rcases List.mem_append.mp h2 with h3 | h3
          · exact absurd rfl ((map_connectEv_no_sdk _ _ h3).2 b m a sl)
          · rcases List.mem_append.mp h3 with h4 | h4
            · rcases waitForBalanceGo_mem_shape w.balances MINIMUM_BALANCE_REQUIRED 10 0 _ h4 with
                ⟨b2, hb2⟩ | hb2 <;> simp at hb2
            · rcases List.mem_append.mp h4 with h5 | h5
              · simp at h5
              · rcases map_createAttemptEv_shape _ _ _ _ _ h5 with h6 | ⟨ms, h6⟩ <;> simp at h6
      · rcases map_buyAttemptEv_shape _ _ _ _ _ _ h1 with h2 | ⟨ms, h2⟩
        · exact Ev.sdkBuy.inj h2
        · simp at h2
    · obtain ⟨j, hj⟩ := sdkRetryGo_ok_attempt w.createAttempts MAX_RETRIES 0 hcr
      obtain ⟨j2, hj2⟩ := sdkRetryGo_ok_attempt w.buyAttempts MAX_RETRIES 0 hbr
      have hcm : Ev.sdkCreateAndBuy (pubOf wd.keypair) (pubOf wd.mint) 100000 ∈
          (sdkRetryLoop w.createAttempts).1.map
            (createAttemptEv (pubOf wd.keypair) (pubOf wd.mint) 100000) := by
        have := List.mem_map_of_mem
          (createAttemptEv (pubOf wd.keypair) (pubOf wd.mint) 100000) hj
        simpa [createAttemptEv] using this
      have hbm : Ev.sdkBuy (pubOfB58 sk) (pubOf wd.mint) 3100000000 100 ∈
          (sdkRetryLoop w.buyAttempts).1.map
            (buyAttemptEv (pubOfB58 sk) (pubOf wd.mint) 3100000000 100) := by
        have := List.mem_map_of_mem
          (buyAttemptEv (pubOfB58 sk) (pubOf wd.mint) 3100000000 100) hj2
        simpa [buyAttemptEv] using this
      refine ⟨Ev.upload :: ((connectGo RETRY_DELAY w.connectOk 0 MAX_RETRIES).1.map connectEv
          ++ ((waitForBalanceGo w.balances MINIMUM_BALANCE_REQUIRED 0 10).1
            ++ ([Ev.getBalance w.balanceAfter]
              ++ (sdkRetryLoop w.createAttempts).1.map
                  (createAttemptEv (pubOf wd.keypair) (pubOf wd.mint) 100000)))),
        (sdkRetryLoop w.buyAttempts).1.map
          (buyAttemptEv (pubOfB58 sk) (pubOf wd.mint) 3100000000 100),
        hev, ?_, ?_, hbm⟩
      · simp [hcm]
      · intro b m a sl hmem
        rcases List.mem_cons.mp hmem with h2 | h2
        · simp at h2
        · rcases List.mem_append.mp h2 with h3 | h3
          · exact absurd rfl ((map_connectEv_no_sdk _ _ h3).2 b m a sl)
          · rcases List.mem_append.mp h3 with h4 | h4
            · rcases waitForBalanceGo_mem_shape w.balances MINIMUM_BALANCE_REQUIRED 10 0 _ h4 with
                ⟨b2, hb2⟩ | hb2 <;> simp at hb2
            · rcases List.mem_append.mp h4 with h5 | h5
              · simp at h5
              · rcases map_createAttemptEv_shape _ _ _ _ _ h5 with h6 | ⟨ms, h6⟩ <;> simp at h6
  · intro henv
    cases hs : (createSolPOST env pubOf pubOfB58 w).resp.success with
    | false => rfl
    | true =>
      obtain ⟨sk, _, hsk, _⟩ := createSolPOST_success_shape env pubOf pubOfB58 w hs
      rw [henv] at hsk
      exact absurd hsk (by simp)
  · intro henv hm
    obtain ⟨wd, hwd, hcr, hresp⟩ := createSolPOST_minted_shape env pubOf pubOfB58 w hm
    rw [hresp]
    constructor <;> simp [solAfterMint, henv, errSolResp]

/-- C7 witness: a concrete all-success create-sol run and memecoin run,
with the ordering hypotheses discharged by evaluation. -/
theorem C7_funding_before_mint_witness :
    (∃ t1 t2, (createSolPOST ⟨some "SK"⟩ (fun _ => "P") (fun s => s)
        ⟨.ok "h", some ⟨[1], [2], "PK"⟩, fun _ => true, fun _ => 1000000000, 500,
         fun _ => .returns true, fun _ => .returns true⟩).events = t1 ++ t2 ∧
      (∃ b, Ev.getBalance b ∈ t1 ∧ fracLe MINIMUM_BALANCE_REQUIRED (fracOfNat b) = true) ∧
      (∀ c2 m2 a2, Ev.sdkCreateAndBuy c2 m2 a2 ∉ t1)) ∧
    ((⟨true, .ok "W", 0, .ok ("bh", 5), .ok "sig", .ok (), .ok "t", .ok true⟩ : MemeWorld).confirmRes = Except.ok () ∧
     ∃ u1 u2, (memecoinPOST "k" (some "a") (fun s => s) (some "Bearer k")
        ⟨true, .ok "W", 0, .ok ("bh", 5), .ok "sig", .ok (), .ok "t", .ok true⟩).events = u1 ++ u2 ∧
       MEv.confirmTx ∈ u1 ∧ MEv.createSolFetch ∉ u1) :=
  ⟨(C7_funding_before_mint ⟨some "SK"⟩ (fun _ => "P") (fun s => s)
      ⟨.ok "h", some ⟨[1], [2], "PK"⟩, fun _ => true, fun _ => 1000000000, 500,
       fun _ => .returns true, fun _ => .returns true⟩ "k" (some "a") (fun s => s)
      (some "Bearer k")
      ⟨true, .ok "W", 0, .ok ("bh", 5), .ok "sig", .ok (), .ok "t", .ok true⟩).1
      "P" "P" 100000 (by decide),
   (C7_funding_before_mint ⟨some "SK"⟩ (fun _ => "P") (fun s => s)
      ⟨.ok "h", some ⟨[1], [2], "PK"⟩, fun _ => true, fun _ => 1000000000, 500,
       fun _ => .returns true, fun _ => .returns true⟩ "k" (some "a") (fun s => s)
      (some "Bearer k")
      ⟨true, .ok "W", 0, .ok ("bh", 5), .ok "sig", .ok (), .ok "t", .ok true⟩).2
      (by decide)⟩

/-- C10 witness: a concrete all-success run satisfies the success
hypothesis, and a concrete run with the buy-back key absent has its
mint flag set while the response carries the buyer-key error. -/
theorem C10_fixed_amounts_witness :
    (createSolPOST ⟨some "SK"⟩ (fun _ => "P") (fun s => s)
        ⟨.ok "h", some ⟨[1], [2], "PK"⟩, fun _ => true, fun _ => 1000000000, 500,
         fun _ => .returns true, fun _ => .returns true⟩).resp.success = true ∧
    (∃ sk wd, (⟨some "SK"⟩ : SolEnv).buyBackPrivateKey = some sk ∧
      (⟨.ok "h", some ⟨[1], [2], "PK"⟩, fun _ => true, fun _ => 1000000000, 500,
        fun _ => .returns true, fun _ => .returns true⟩ : SolWorld).walletData = some wd ∧
      (∀ c m a, Ev.sdkCreateAndBuy c m a ∈ (createSolPOST ⟨some "SK"⟩ (fun _ => "P") (fun s => s)
          ⟨.ok "h", some ⟨[1], [2], "PK"⟩, fun _ => true, fun _ => 1000000000, 500,
           fun _ => .returns true, fun _ => .returns true⟩).events →
        c = (fun _ => "P") wd.keypair ∧ m = (fun _ => "P") wd.mint ∧ a = 100000) ∧
      (∀ b m a sl, Ev.sdkBuy b m a sl ∈ (createSolPOST ⟨some "SK"⟩ (fun _ => "P") (fun s => s)
          ⟨.ok "h", some ⟨[1], [2], "PK"⟩, fun _ => true, fun _ => 1000000000, 500,
           fun _ => .returns true, fun _ => .returns true⟩).events →
        b = (fun s => s) sk ∧ m = (fun _ => "P") wd.mint ∧ a = 3100000000 ∧ sl = 100) ∧
      (∃ t1 t2, (createSolPOST ⟨some "SK"⟩ (fun _ => "P") (fun s => s)
          ⟨.ok "h", some ⟨[1], [2], "PK"⟩, fun _ => true, fun _ => 1000000000, 500,
           fun _ => .returns true, fun _ => .returns true⟩).events = t1 ++ t2 ∧
        Ev.sdkCreateAndBuy ((fun _ => "P") wd.keypair) ((fun _ => "P") wd.mint) 100000 ∈ t1 ∧
        (∀ b m a sl, Ev.sdkBuy b m a sl ∉ t1) ∧
        Ev.sdkBuy ((fun s => s) sk) ((fun _ => "P") wd.mint) 3100000000 100 ∈ t2)) ∧
    (createSolPOST ⟨none⟩ (fun _ => "P") (fun s => s)
        ⟨.ok "h", some ⟨[1], [2], "PK"⟩, fun _ => true, fun _ => 1000000000, 500,
         fun _ => .returns true, fun _ => .returns true⟩).minted = true ∧
    (createSolPOST ⟨none⟩ (fun _ => "P") (fun s => s)
        ⟨.ok "h", some ⟨[1], [2], "PK"⟩, fun _ => true, fun _ => 1000000000, 500,
         fun _ => .returns true, fun _ => .returns true⟩).resp.error =
      some "Buyer private key not found" :=
  ⟨by decide,
   (C10_fixed_amounts_and_mandatory_buyback ⟨some "SK"⟩ (fun _ => "P") (fun s => s)
      ⟨.ok "h", some ⟨[1], [2], "PK"⟩, fun _ => true, fun _ => 1000000000, 500,
       fun _ => .returns true, fun _ => .returns true⟩).1 (by decide),
   by decide,
   ((C10_fixed_amounts_and_mandatory_buyback ⟨none⟩ (fun _ => "P") (fun s => s)
      ⟨.ok "h", some ⟨[1], [2], "PK"⟩, fun _ => true, fun _ => 1000000000, 500,
       fun _ => .returns true, fun _ => .returns true⟩).2.2 rfl (by decide)).1⟩
